import Mathlib

/-!
Verification development for the invoice-extraction engine in
`extract_invoices.py`.  The Python source is shallowly embedded: pure helper
functions become Lean functions on `String`/`List Char`/`Int`, the money
reconciliation cascade becomes an explicit state-passing function, and the
regular expressions of the source are transcribed as character-list scanners
with the same matching semantics.  Python `int`s are modelled by `Int`
(they are unbounded), Python `str` by `String`.
-/

namespace Invoice

/-! ### Character and digit utilities -/

/-- ASCII decimal digit test (Python's `str.isdigit` on the characters that
occur in the strings handled here; the exotic Unicode digits accepted by
Python are not modelled). -/
def isDigitCh (c : Char) : Bool := '0' ≤ c && c ≤ '9'

/-- Numeric value of an ASCII digit character. -/
def digitVal (c : Char) : Nat := c.toNat - '0'.toNat

/-- Python `str.strip()`: remove leading and trailing whitespace. -/
def pyStrip (l : List Char) : List Char :=
  ((l.dropWhile Char.isWhitespace).reverse.dropWhile Char.isWhitespace).reverse

/-- Decimal digits of a natural number, least-significant first
(fuel-indexed so that the definition is structural and kernel-reducible). -/
def natDigitsRevAux : Nat → Nat → List Char
  | 0, _ => []
  | fuel+1, n =>
    if n < 10 then [Nat.digitChar n]
    else Nat.digitChar (n % 10) :: natDigitsRevAux fuel (n / 10)

/-- Decimal digits of `n`, least-significant first. -/
def natDigitsRev (n : Nat) : List Char := natDigitsRevAux (n+1) n

/-- Decode a most-significant-first digit list. -/
def digitsFold (l : List Char) : Nat := l.foldl (fun a c => 10 * a + digitVal c) 0

/-- Insert the separator `sep` after every three characters of a
least-significant-first digit list (`k` = digits still to go before the next
separator); this is the grouping performed by Python's `f"{n:,}"`. -/
def grpAux (sep : Char) : Nat → List Char → List Char
  | _, [] => []
  | 0, c :: cs => sep :: c :: grpAux sep 2 cs
  | k+1, c :: cs => c :: grpAux sep k cs

/-- Characters of `n` grouped by thousands with separator `sep`,
most-significant first. -/
def groupNat (sep : Char) (n : Nat) : List Char :=
  (grpAux sep 3 (natDigitsRev n)).reverse

/-! ### Model of Python `int(...)` -/

def digitsToNat? (l : List Char) : Option Nat :=
  if l ≠ [] ∧ l.all isDigitCh then some (digitsFold l) else none

/-- Python `int(s)`: optional surrounding whitespace, optional sign, a
non-empty digit string; anything else raises `ValueError` (`none` here).
(The underscore digit grouping Python also accepts is not modelled; no input
in this code base contains underscores.) -/
def pyIntOpt (l : List Char) : Option Int :=
  let t := pyStrip l
  match t with
  | [] => none
  | c :: rest =>
    if c = '-' then (digitsToNat? rest).map (fun n => -(n : Int))
    else if c = '+' then (digitsToNat? rest).map (fun n => (n : Int))
    else (digitsToNat? t).map (fun n => (n : Int))

/-! ### The ambiguous-separator resolution shared by the parsers
(`extract_invoices.py` lines 190-214, 1082-1108 and 123-151). -/

/-- `re.search(r'[,.]\d{2}$', s)`: the third-from-last character is a
separator and the last two are digits. -/
def sepTrailing2 (l : List Char) : Bool :=
  match l.reverse with
  | a :: b :: c :: _ => isDigitCh a && isDigitCh b && (c = '.' || c = ',')
  | _ => false

/-- `re.search(r'[,.]\d{3}$', s)`: the fourth-from-last character is a
separator and the last three are digits. -/
def sepTrailing3 (l : List Char) : Bool :=
  match l.reverse with
  | a :: b :: c :: d :: _ =>
    isDigitCh a && isDigitCh b && isDigitCh c && (d = '.' || d = ',')
  | _ => false

/-- `s[:s.rfind(c)]`: the prefix of `l` before the last occurrence of `c`. -/
def cutLast (c : Char) (l : List Char) : List Char :=
  ((l.reverse.dropWhile (fun x => x ≠ c)).drop 1).reverse

/-- When both `.` and `,` occur, cut at whichever occurs later in the string
(the later separator is treated as the decimal separator and everything from
it on is discarded). -/
def bothSepCut (l : List Char) : List Char :=
  match l.reverse.find? (fun c => c = '.' || c = ',') with
  | some c => cutLast c l
  | none => l

/-- The separator-resolution step shared by `parse_money` and the helper
parser inside `extract_invoice_data`: both separators present → keep the part
before the later one; a single separator type → drop a 2-digit decimal suffix
(`s[:-3]`) when the string ends in separator+2 digits but not separator+3. -/
def sepResolve (l : List Char) : List Char :=
  if ('.' ∈ l) ∧ (',' ∈ l) then bothSepCut l
  else if sepTrailing2 l ∧ ¬ (sepTrailing3 l = true) then l.take (l.length - 3)
  else l

/-- Character kept by `s.replace('.', '').replace(',', '')`. -/
def keepCh (c : Char) : Bool := !(c = '.' || c = ',')

/-- `s.replace('.', '').replace(',', '')`. -/
def stripSeps (l : List Char) : List Char := l.filter keepCh

/-! ### `parse_money` / `format_money` (module level, lines 190-221) -/

/-- `parse_money` (lines 190-214): returns `none` ("None") when the input is
empty or `int(...)` fails after separator resolution. -/
def parse_money (value : String) : Option Int :=
  if value = "" then none
  else pyIntOpt (stripSeps (sepResolve (pyStrip value.toList)))

/-- `format_money` (lines 217-221): `""` for `None`, otherwise `f"{value:,}"`
(thousands grouping with a comma). -/
def format_money : Option Int → String
  | none => ""
  | some v =>
    if v < 0 then ⟨'-' :: groupNat ',' v.natAbs⟩ else ⟨groupNat ',' v.toNat⟩

/-! ### The helper parser/formatter defined inside `extract_invoice_data`
(lines 1082-1119).  The nested `parse_money` returns `0` (not `None`) on
empty input and on `int` failure; the nested `format_money` groups with dots.
Because this parser always returns an `Int`, the source's later
`is not None` tests on its results are always true. -/

/-- The `parse_money` closure inside `extract_invoice_data` (lines 1082-1108). -/
def innerParseMoney (s : String) : Int :=
  if s = "" then 0
  else (pyIntOpt (stripSeps (sepResolve (pyStrip s.toList)))).getD 0

/-- The `format_money` closure inside `extract_invoice_data` (lines 1110-1119)
applied to an `int` argument, the only way the source applies it: for an int
`n`, `parse_money(n)` is `n` itself again, and `f"{n:,.0f}".replace(',', '.')`
groups by thousands with dots. -/
def innerFormatMoney (v : Int) : String :=
  if v < 0 then ⟨'-' :: groupNat '.' v.natAbs⟩ else ⟨groupNat '.' v.toNat⟩

/-- The `_parse_money` helper inside `validate_invoice_data` (lines 2536-2540):
strip, drop every separator (no decimal-suffix logic), `int`, `0` on failure. -/
def validateParse (s : String) : Int :=
  if s = "" then 0
  else (pyIntOpt (stripSeps (pyStrip s.toList))).getD 0

/-! ### Round-trip infrastructure: digits, grouping, parsing -/

/-- A digit character as produced by the formatter: it is a decimal digit and
is none of the characters the parser treats specially. -/
def goodDigit (c : Char) : Prop :=
  isDigitCh c = true ∧ c ≠ '.' ∧ c ≠ ',' ∧ c ≠ '-' ∧ c ≠ '+' ∧
    c.isWhitespace = false ∧ c ≠ '\xad'

lemma goodDigit_digitChar (d : Nat) (h : d < 10) : goodDigit (Nat.digitChar d) := by
  interval_cases d <;>
    exact ⟨by decide, by decide, by decide, by decide, by decide, by decide, by decide⟩

lemma digitVal_digitChar (d : Nat) (h : d < 10) : digitVal (Nat.digitChar d) = d := by
  interval_cases d <;> decide

lemma natDigitsRevAux_congr :
    ∀ (n f₁ f₂ : Nat), n < f₁ → n < f₂ →
      natDigitsRevAux f₁ n = natDigitsRevAux f₂ n := by
  intro n
  induction n using Nat.strong_induction_on with
  | _ n ih =>
    intro f₁ f₂ h₁ h₂
    match f₁, f₂ with
    | g₁+1, g₂+1 =>
      simp only [natDigitsRevAux]
      by_cases h10 : n < 10
      · simp [h10]
      · have hdiv : n / 10 < n := Nat.div_lt_self (by omega) (by omega)
        simp only [if_neg h10]
        rw [ih (n / 10) hdiv g₁ g₂ (by omega) (by omega)]

lemma natDigitsRev_eq_lt {n : Nat} (h : n < 10) :
    natDigitsRev n = [Nat.digitChar n] := by
  unfold natDigitsRev natDigitsRevAux
  simp [h]

lemma natDigitsRev_eq_ge {n : Nat} (h : 10 ≤ n) :
    natDigitsRev n = Nat.digitChar (n % 10) :: natDigitsRev (n / 10) := by
  have hdiv : n / 10 < n := Nat.div_lt_self (by omega) (by omega)
  unfold natDigitsRev
  conv_lhs => rw [natDigitsRevAux]
  rw [if_neg (by omega)]
  rw [natDigitsRevAux_congr (n / 10) n (n / 10 + 1) (by omega) (by omega)]

lemma natDigitsRev_ne_nil (n : Nat) : natDigitsRev n ≠ [] := by
  by_cases h : n < 10
  · rw [natDigitsRev_eq_lt h]; simp
  · rw [natDigitsRev_eq_ge (by omega)]; simp

lemma natDigitsRev_good (n : Nat) : ∀ c ∈ natDigitsRev n, goodDigit c := by
  induction n using Nat.strong_induction_on with
  | _ n ih =>
    by_cases h : n < 10
    · rw [natDigitsRev_eq_lt h]
      intro c hc
      rw [List.mem_singleton] at hc
      exact hc ▸ goodDigit_digitChar n h
    · rw [natDigitsRev_eq_ge (by omega)]
      intro c hc
      rcases List.mem_cons.mp hc with rfl | hc'
      · exact goodDigit_digitChar _ (Nat.mod_lt _ (by omega))
      · exact ih (n / 10) (Nat.div_lt_self (by omega) (by omega)) c hc'

lemma digitsFold_append (l : List Char) (c : Char) :
    digitsFold (l ++ [c]) = 10 * digitsFold l + digitVal c := by
  simp [digitsFold, List.foldl_append]

lemma digitsFold_natDigitsRev (n : Nat) :
    digitsFold (natDigitsRev n).reverse = n := by
  induction n using Nat.strong_induction_on with
  | _ n ih =>
    by_cases h : n < 10
    · rw [natDigitsRev_eq_lt h]
      simp [digitsFold, digitVal_digitChar n h]
    · rw [natDigitsRev_eq_ge (by omega)]
      rw [List.reverse_cons, digitsFold_append,
        ih (n / 10) (Nat.div_lt_self (by omega) (by omega)),
        digitVal_digitChar _ (Nat.mod_lt _ (by omega))]
      omega

lemma grpAux_mem (sep : Char) :
    ∀ (l : List Char) (k : Nat) (c : Char), c ∈ grpAux sep k l → c ∈ l ∨ c = sep := by
  intro l
  induction l with
  | nil => intro k c hc; simp [grpAux] at hc
  | cons a as ihl =>
    intro k c hc
    match k with
    | 0 =>
      simp only [grpAux, List.mem_cons] at hc
      rcases hc with rfl | rfl | hc
      · right; rfl
      · left; exact List.mem_cons_self _ _
      · rcases ihl 2 c hc with h | h
        · left; exact List.mem_cons_of_mem _ h
        · right; exact h
    | k+1 =>
      simp only [grpAux, List.mem_cons] at hc
      rcases hc with rfl | hc
      · left; exact List.mem_cons_self _ _
      · rcases ihl k c hc with h | h
        · left; exact List.mem_cons_of_mem _ h
        · right; exact h

lemma grpAux_ne_nil (sep : Char) (k : Nat) (l : List Char) (h : l ≠ []) :
    grpAux sep k l ≠ [] := by
  match l, k with
  | [], _ => exact absurd rfl h
  | c :: cs, 0 => simp [grpAux]
  | c :: cs, k+1 => simp [grpAux]

lemma grpAux_filter (sep : Char) (hsep : sep = '.' ∨ sep = ',') :
    ∀ (l : List Char) (k : Nat), (∀ c ∈ l, goodDigit c) →
      (grpAux sep k l).filter keepCh = l := by
  intro l
  induction l with
  | nil => intro k _; simp [grpAux]
  | cons a as ihl =>
    intro k hgood
    have ha : goodDigit a := hgood a (List.mem_cons_self _ _)
    have has : ∀ c ∈ as, goodDigit c := fun c hc => hgood c (List.mem_cons_of_mem _ hc)
    have hkeep : keepCh a = true := by
      simp [keepCh, ha.2.1, ha.2.2.1]
    have hdrop : ¬ keepCh sep = true := by
      rcases hsep with rfl | rfl <;> simp [keepCh]
    match k with
    | 0 =>
      show List.filter _ (sep :: a :: grpAux sep 2 as) = a :: as
      rw [List.filter_cons_of_neg hdrop, List.filter_cons_of_pos hkeep, ihl 2 has]
    | k+1 =>
      show List.filter _ (a :: grpAux sep k as) = a :: as
      rw [List.filter_cons_of_pos hkeep, ihl k has]

/-- The thousands-grouped rendering of `n` is never empty. -/
lemma groupNat_ne_nil (sep : Char) (n : Nat) : groupNat sep n ≠ [] := by
  unfold groupNat
  simp only [ne_eq, List.reverse_eq_nil_iff]
  exact grpAux_ne_nil sep 3 _ (natDigitsRev_ne_nil n)

lemma groupNat_mem (sep : Char) (n : Nat) :
    ∀ c ∈ groupNat sep n, goodDigit c ∨ c = sep := by
  intro c hc
  unfold groupNat at hc
  rw [List.mem_reverse] at hc
  rcases grpAux_mem sep _ 3 c hc with h | h
  · exact Or.inl (natDigitsRev_good n c h)
  · exact Or.inr h

lemma sepTrailing2_groupNat (sep : Char) (n : Nat) :
    sepTrailing2 (groupNat sep n) = false := by
  unfold sepTrailing2 groupNat
  rw [List.reverse_reverse]
  have hgood := natDigitsRev_good n
  rcases hd : natDigitsRev n with _ | ⟨a, _ | ⟨b, _ | ⟨c, rest⟩⟩⟩
  · exact absurd hd (natDigitsRev_ne_nil n)
  · rfl
  · rfl
  · have hc : goodDigit c := hgood c (by rw [hd]; simp)
    show (isDigitCh a && isDigitCh b && (c = '.' || c = ',')) = false
    simp [hc.2.1, hc.2.2.1]

lemma pyStrip_eq_self (l : List Char) (h : ∀ c ∈ l, c.isWhitespace = false) :
    pyStrip l = l := by
  have hd : ∀ (m : List Char), (∀ c ∈ m, c.isWhitespace = false) →
      m.dropWhile Char.isWhitespace = m := by
    intro m hm
    cases m with
    | nil => rfl
    | cons x xs =>
      rw [List.dropWhile_cons_of_neg]
      simp [hm x (List.mem_cons_self _ _)]
  unfold pyStrip
  rw [hd l h, hd l.reverse (fun c hc => h c (List.mem_reverse.mp hc)),
    List.reverse_reverse]

/-- Core round trip: parsing the grouped rendering of `n` (with either
separator) recovers `n`. -/
lemma parse_groupNat (sep : Char) (hsep : sep = '.' ∨ sep = ',') (n : Nat) :
    pyIntOpt (stripSeps (sepResolve (pyStrip (groupNat sep n)))) = some (n : Int) := by
  have hmem := groupNat_mem sep n
  have hws : ∀ c ∈ groupNat sep n, c.isWhitespace = false := by
    intro c hc
    rcases hmem c hc with h | rfl
    · exact h.2.2.2.2.2.1
    · rcases hsep with rfl | rfl <;> decide
  rw [pyStrip_eq_self _ hws]
  have hresolve : sepResolve (groupNat sep n) = groupNat sep n := by
    unfold sepResolve
    have hnotboth : ¬ (('.' ∈ groupNat sep n) ∧ (',' ∈ groupNat sep n)) := by
      rintro ⟨hdot, hcomma⟩
      rcases hsep with rfl | rfl
      · rcases hmem ',' hcomma with h | h
        · exact absurd h.1 (by decide)
        · exact absurd h (by decide)
      · rcases hmem '.' hdot with h | h
        · exact absurd h.1 (by decide)
        · exact absurd h (by decide)
    rw [if_neg hnotboth, if_neg]
    rw [sepTrailing2_groupNat]
    simp
  rw [hresolve]
  have hstrip : stripSeps (groupNat sep n) = (natDigitsRev n).reverse := by
    unfold stripSeps groupNat
    rw [List.filter_reverse, grpAux_filter sep hsep _ 3 (natDigitsRev_good n)]
  rw [hstrip]
  have hgoodr : ∀ c ∈ (natDigitsRev n).reverse, goodDigit c := by
    intro c hc; exact natDigitsRev_good n c (List.mem_reverse.mp hc)
  have hwsr : ∀ c ∈ (natDigitsRev n).reverse, c.isWhitespace = false :=
    fun c hc => (hgoodr c hc).2.2.2.2.2.1
  have hne : (natDigitsRev n).reverse ≠ [] := by
    simp [natDigitsRev_ne_nil n]
  obtain ⟨c, rest, hshape⟩ := List.exists_cons_of_ne_nil hne
  have hcgood : goodDigit c := hgoodr c (by rw [hshape]; simp)
  unfold pyIntOpt
  rw [pyStrip_eq_self _ hwsr, hshape]
  simp only [if_neg hcgood.2.2.2.1, if_neg hcgood.2.2.2.2.1]
  have hall : ((c :: rest).all isDigitCh) = true := by
    rw [List.all_eq_true]
    intro x hx
    exact (hgoodr x (by rw [hshape]; exact hx)).1
  unfold digitsToNat?
  rw [if_pos ⟨by simp, hall⟩]
  rw [← hshape, digitsFold_natDigitsRev n]
  rfl

/-- `innerFormatMoney` never yields the empty string. -/
lemma innerFormatMoney_ne_empty (v : Int) : innerFormatMoney v ≠ "" := by
  unfold innerFormatMoney
  split
  · intro h
    exact absurd (congrArg String.data h) (by simp)
  · intro h
    exact groupNat_ne_nil '.' v.toNat (congrArg String.data h)

/-- Round trip for the helper parser/formatter inside `extract_invoice_data`:
formatting a non-negative amount with dots and re-parsing it is the identity. -/
lemma innerParse_innerFormat (v : Int) (h : 0 ≤ v) :
    innerParseMoney (innerFormatMoney v) = v := by
  have hfmt : innerFormatMoney v = ⟨groupNat '.' v.toNat⟩ := by
    unfold innerFormatMoney
    rw [if_neg (by omega)]
  unfold innerParseMoney
  rw [if_neg (hfmt ▸ innerFormatMoney_ne_empty v), hfmt]
  show (pyIntOpt (stripSeps (sepResolve (pyStrip (groupNat '.' v.toNat))))).getD 0 = v
  rw [parse_groupNat '.' (Or.inl rfl) v.toNat]
  simp [Int.toNat_of_nonneg h]

/-! ### Claims C4, C5, C6 -/

/-- C4: `parse_money` resolves ambiguous separators as specified:
`parse_money("1.234.567") = 1234567`, `parse_money("1.234,56") = 1234`,
`parse_money("1,234.56") = 1234`, and `parse_money("79,600") = 79600`
(a 3-digit suffix after a single separator means thousands, not decimal). -/
theorem claim_C4_separator_resolution :
    parse_money "1.234.567" = some 1234567 ∧
    parse_money "1.234,56" = some 1234 ∧
    parse_money "1,234.56" = some 1234 ∧
    parse_money "79,600" = some 79600 := by
  refine ⟨by decide, by decide, by decide, by decide⟩

/-- C5: the module-level money formatter is inverted by the parser on the
valid range: for every integer `n ≥ 1000`,
`parse_money(format_money(n)) = n`. -/
theorem claim_C5_money_roundtrip (n : Int) (h : 1000 ≤ n) :
    parse_money (format_money (some n)) = some n := by
  have h0 : ¬ n < 0 := by omega
  have hfmt : format_money (some n) = ⟨groupNat ',' n.toNat⟩ := by
    show (if n < 0 then _ else _) = _
    rw [if_neg h0]
  have hne : (⟨groupNat ',' n.toNat⟩ : String) ≠ "" := fun hc =>
    groupNat_ne_nil ',' n.toNat (congrArg String.data hc)
  rw [hfmt]
  unfold parse_money
  rw [if_neg hne]
  show pyIntOpt (stripSeps (sepResolve (pyStrip (groupNat ',' n.toNat)))) = some n
  rw [parse_groupNat ',' (Or.inr rfl) n.toNat, Int.toNat_of_nonneg (by omega)]

theorem claim_C5_money_roundtrip_witness :
    1000 ≤ (1234567 : Int) ∧
      parse_money (format_money (some 1234567)) = some 1234567 :=
  ⟨by norm_num, claim_C5_money_roundtrip 1234567 (by norm_num)⟩

/-- C6 counterexample: not every amount parser of the pipeline keeps parse
failure distinguishable from a genuine zero.  The helper parser defined
inside `extract_invoice_data` (lines 1082-1108) and the validator's parser
both map the unparseable string `"abc"` to `0`, the same value they produce
for the genuine amount string `"0"` — while `"abc"` really is unparseable
(the module parser rejects it). -/
theorem claim_C6_zero_default_counterexample :
    parse_money "abc" = none ∧
    innerParseMoney "abc" = 0 ∧ innerParseMoney "0" = 0 ∧
    validateParse "abc" = 0 ∧ validateParse "0" = 0 := by
  refine ⟨by decide, by decide, by decide, by decide, by decide⟩

/-- C6 amended: only the module-level `parse_money` yields a distinguished
absent result (`None`) on parse failure; the amount parsers nested inside
`extract_invoice_data` and `validate_invoice_data` default to `0` on failure,
which is indistinguishable from parsing a genuine zero amount. -/
theorem claim_C6_zero_default_amended :
    (parse_money "abc" = none ∧ parse_money "0" = some 0 ∧
      parse_money "abc" ≠ parse_money "0" ∧ parse_money "" = none) ∧
    (innerParseMoney "abc" = innerParseMoney "0" ∧
      validateParse "abc" = validateParse "0") := by
  refine ⟨⟨by decide, by decide, by decide, by decide⟩, by decide, by decide⟩

/-! ### The invoice record

`extract_invoice_data` initialises `data` as a dict with exactly these 19
keys (lines 1126-1148).  The record below carries them as string fields in
source order; `tenFile` is "Tên file". -/

structure InvoiceRecord where
  tenFile : String
  ngayHoaDon : String
  soHoaDon : String
  donViBan : String
  phanLoai : String
  soTienTruocThue : String
  thue0 : String
  thue5 : String
  thue8 : String
  thue10 : String
  thueKhac : String
  tienThue : String
  soTienSau : String
  linkLayHoaDon : String
  maTraCuu : String
  maSoThue : String
  maCQT : String
  kyHieu : String
  phiPV : String
deriving DecidableEq, Repr

/-- The record as initialised at lines 1126-1148: file name plus 18 blank
fields. -/
def initRecord (filename : String) : InvoiceRecord :=
  { tenFile := filename, ngayHoaDon := "", soHoaDon := "", donViBan := ""
    phanLoai := "", soTienTruocThue := "", thue0 := "", thue5 := ""
    thue8 := "", thue10 := "", thueKhac := "", tienThue := "", soTienSau := ""
    linkLayHoaDon := "", maTraCuu := "", maSoThue := "", maCQT := ""
    kyHieu := "", phiPV := "" }

/-! ### Validation engine (`validate_invoice_data`, lines 2529-2585) -/

inductive Severity where
  | error
  | warning
deriving DecidableEq, Repr

structure VIssue where
  fieldName : String
  severity : Severity
  message : String
deriving DecidableEq, Repr

/-- Decimal rendering of a natural number (Python `f"{n}"`). -/
def natToString (n : Nat) : String := ⟨(natDigitsRev n).reverse⟩

/-- Python `f"{v:,}"`: thousands grouping with commas, sign preserved. -/
def intComma (v : Int) : String :=
  if v < 0 then ⟨'-' :: groupNat ',' v.natAbs⟩ else ⟨groupNat ',' v.toNat⟩

/-- `re.match(r'^\d{1,2}/\d{1,2}/\d{4}$', s)`: day(1-2 digits) / month(1-2
digits) / 4-digit year, nothing else. -/
def dateFormatOk (l : List Char) : Bool :=
  let d1 := l.takeWhile isDigitCh
  let r1 := l.drop d1.length
  (d1.length = 1 || d1.length = 2) &&
  match r1 with
  | '/' :: r2 =>
    let d2 := r2.takeWhile isDigitCh
    let r3 := r2.drop d2.length
    ((d2.length = 1 || d2.length = 2) &&
    match r3 with
    | '/' :: r4 => (r4.takeWhile isDigitCh).length = 4 && r4.length = 4
    | _ => false)
  | _ => false

/-- `re.match(r'^[\d\-]{10,14}$', s)`: 10 to 14 characters, all digits or
hyphens. -/
def mstFormatOk (l : List Char) : Bool :=
  l.all (fun c => isDigitCh c || c = '-') && (10 ≤ l.length) && (l.length ≤ 14)

/-- `validate_invoice_data` (lines 2529-2585): a pure report over the
finished record (the source never assigns into `data`), transcribed check by
check in source order. -/
def validate_invoice_data (d : InvoiceRecord) : List VIssue :=
  let seller := pyStrip d.donViBan.toList
  let dateVal := pyStrip d.ngayHoaDon.toList
  let beforeTax := validateParse d.soTienTruocThue
  let afterTax := validateParse d.soTienSau
  let mst := pyStrip d.maSoThue.toList
  (if seller = [] ∨ seller.length < 5 then
    [⟨"Đơn vị bán", Severity.error, "Thiếu hoặc quá ngắn"⟩] else []) ++
  (if pyStrip d.soHoaDon.toList = [] then
    [⟨"Số hóa đơn", Severity.error, "Thiếu số hóa đơn"⟩] else []) ++
  (if dateVal = [] then
    [⟨"Ngày hóa đơn", Severity.error, "Thiếu ngày hóa đơn"⟩]
   else if dateFormatOk dateVal = false then
    [⟨"Ngày hóa đơn", Severity.warning,
      "Định dạng ngày không chuẩn: " ++ ⟨dateVal⟩⟩]
   else []) ++
  (if beforeTax = 0 then
    [⟨"Số tiền trước Thuế", Severity.error, "Số tiền trước thuế = 0 hoặc trống"⟩]
   else []) ++
  (if afterTax = 0 then
    [⟨"Số tiền sau", Severity.error, "Số tiền sau thuế = 0 hoặc trống"⟩]
   else []) ++
  (if mst = [] then
    [⟨"Mã số thuế", Severity.warning, "Thiếu mã số thuế"⟩]
   else if mstFormatOk mst = false then
    [⟨"Mã số thuế", Severity.warning,
      "MST không hợp lệ (" ++ natToString mst.length ++ " ký tự)"⟩]
   else []) ++
  (if pyStrip d.linkLayHoaDon.toList = [] then
    [⟨"Link lấy hóa đơn", Severity.warning, "Thiếu link tra cứu"⟩] else []) ++
  (if pyStrip d.maTraCuu.toList = [] then
    [⟨"Mã tra cứu", Severity.warning, "Thiếu mã tra cứu"⟩] else []) ++
  (if pyStrip d.kyHieu.toList = [] then
    [⟨"Ký hiệu", Severity.warning, "Thiếu ký hiệu"⟩] else []) ++
  (if 0 < beforeTax ∧ 0 < afterTax ∧ afterTax < beforeTax then
    [⟨"Số tiền sau", Severity.warning,
      "Số tiền sau (" ++ intComma afterTax ++ ") < trước thuế (" ++
        intComma beforeTax ++ ")"⟩]
   else [])

/-! ### Claim C9 -/

/-- A concrete finished record whose only flaw is a present-but-malformed
invoice date. -/
def recordMalformedDate : InvoiceRecord :=
  { tenFile := "x.pdf", ngayHoaDon := "02-01-2025", soHoaDon := "123"
    donViBan := "Công ty TNHH ABC", phanLoai := "", soTienTruocThue := "1.000.000"
    thue0 := "", thue5 := "", thue8 := "", thue10 := "", thueKhac := ""
    tienThue := "", soTienSau := "1.100.000", linkLayHoaDon := "http://x"
    maTraCuu := "ABC", maSoThue := "0123456789", maCQT := "", kyHieu := "K25"
    phiPV := "" }

/-- C9 counterexample: a malformed (but present) invoice date is classified
as a warning, not an error — the complete issue list for
`recordMalformedDate` is a single warning-severity entry. -/
theorem claim_C9_validation_counterexample :
    validate_invoice_data recordMalformedDate =
      [⟨"Ngày hóa đơn", Severity.warning,
        "Định dạng ngày không chuẩn: 02-01-2025"⟩] := by
  decide

/-- C9 amended: the error-severity issues of `validate_invoice_data` are
exactly: missing/short seller name, missing invoice number, missing (not
malformed) invoice date, zero/blank pre-tax amount and zero/blank total
amount; a present-but-malformed date is reported as a warning.  The function
is a pure report: it returns issues without touching the record. -/
theorem claim_C9_validation_amended (d : InvoiceRecord) :
    ((validate_invoice_data d).filter
        (fun i => decide (i.severity = Severity.error)) =
      (if pyStrip d.donViBan.toList = [] ∨ (pyStrip d.donViBan.toList).length < 5 then
        [⟨"Đơn vị bán", Severity.error, "Thiếu hoặc quá ngắn"⟩] else []) ++
      (if pyStrip d.soHoaDon.toList = [] then
        [⟨"Số hóa đơn", Severity.error, "Thiếu số hóa đơn"⟩] else []) ++
      (if pyStrip d.ngayHoaDon.toList = [] then
        [⟨"Ngày hóa đơn", Severity.error, "Thiếu ngày hóa đơn"⟩] else []) ++
      (if validateParse d.soTienTruocThue = 0 then
        [⟨"Số tiền trước Thuế", Severity.error, "Số tiền trước thuế = 0 hoặc trống"⟩]
       else []) ++
      (if validateParse d.soTienSau = 0 then
        [⟨"Số tiền sau", Severity.error, "Số tiền sau thuế = 0 hoặc trống"⟩]
       else [])) ∧
    (pyStrip d.ngayHoaDon.toList ≠ [] →
      dateFormatOk (pyStrip d.ngayHoaDon.toList) = false →
      (⟨"Ngày hóa đơn", Severity.warning,
        "Định dạng ngày không chuẩn: " ++ ⟨pyStrip d.ngayHoaDon.toList⟩⟩ : VIssue)
        ∈ validate_invoice_data d) := by
  constructor
  · unfold validate_invoice_data
    simp only [List.filter_append, apply_ite
      (List.filter (fun (i : VIssue) => decide (i.severity = Severity.error)))]
    simp
  · intro h1 h2
    unfold validate_invoice_data
    simp only [List.mem_append, if_neg h1, if_pos h2]
    simp

theorem claim_C9_validation_amended_witness :
    pyStrip ("02-01-2025" : String).toList ≠ [] ∧
    dateFormatOk (pyStrip ("02-01-2025" : String).toList) = false ∧
    (⟨"Ngày hóa đơn", Severity.warning,
      "Định dạng ngày không chuẩn: " ++
        ⟨pyStrip ("02-01-2025" : String).toList⟩⟩ : VIssue)
      ∈ validate_invoice_data recordMalformedDate :=
  ⟨by decide, by decide,
    (claim_C9_validation_amended recordMalformedDate).2 (by decide) (by decide)⟩

/-! ### List-level string utilities shared by the normalizer and the
line-item extractor.  (Core's `String.replace`/`String.splitOn` rely on
well-founded recursion, so structural equivalents are defined here to keep
everything kernel-reducible.) -/

/-- `pat` is a prefix of `l` (first argument is the pattern). -/
def startsWithL : List Char → List Char → Bool
  | [], _ => true
  | _ :: _, [] => false
  | p :: ps, c :: cs => p = c && startsWithL ps cs

/-- Fuel-indexed engine of Python `str.replace`: leftmost, non-overlapping. -/
def replAux : Nat → List Char → List Char → List Char → List Char
  | 0, _, _, l => l
  | _+1, _, _, [] => []
  | fuel+1, pat, rep, c :: cs =>
    if startsWithL pat (c :: cs) then
      rep ++ replAux fuel pat rep ((c :: cs).drop pat.length)
    else c :: replAux fuel pat rep cs

/-- Python `s.replace(pat, rep)` for a non-empty pattern. -/
def replL (l pat rep : List Char) : List Char :=
  if pat = [] then l else replAux l.length pat rep l

/-- Python `s.replace(pat, rep)` on strings. -/
def pyReplace (s pat rep : String) : String := ⟨replL s.toList pat.toList rep.toList⟩

/-- Python `s.split('\n')`. -/
def splitNl : List Char → List (List Char)
  | [] => [[]]
  | c :: cs =>
    match splitNl cs with
    | [] => [[]]
    | w :: ws => if c = '\n' then [] :: w :: ws else (c :: w) :: ws

/-- Python `'\n'.join(...)`. -/
def joinNl : List (List Char) → List Char
  | [] => []
  | [w] => w
  | w :: ws => w ++ '\n' :: joinNl ws

/-! ### Line items -/

/-- One entry of the `services` list built by `extract_services_from_text`
(name, qty, unit_price, amount as strings, plus the detected tax rate). -/
structure SvcItem where
  name : String
  qty : String
  unitPrice : String
  amount : String
  taxRate : Option String
deriving DecidableEq, Repr

/-! ### Text normalizer and routing of `extract_invoice_data`
(lines 1151-1325): text layer → OCR fallback → garbage-line cleanup →
fallback text file → terminal sentinel. -/

/-- The sentinel written when neither path yields text (line 1324). -/
def UNRECOGNIZED : String := "không nhận diện được"

/-- The loop `for key in data: if key != "Tên file": data[key] = "không nhận
diện được"` (lines 1322-1324). -/
def sentinelFill (d : InvoiceRecord) : InvoiceRecord :=
  { tenFile := d.tenFile, ngayHoaDon := UNRECOGNIZED, soHoaDon := UNRECOGNIZED
    donViBan := UNRECOGNIZED, phanLoai := UNRECOGNIZED
    soTienTruocThue := UNRECOGNIZED, thue0 := UNRECOGNIZED
    thue5 := UNRECOGNIZED, thue8 := UNRECOGNIZED, thue10 := UNRECOGNIZED
    thueKhac := UNRECOGNIZED, tienThue := UNRECOGNIZED
    soTienSau := UNRECOGNIZED, linkLayHoaDon := UNRECOGNIZED
    maTraCuu := UNRECOGNIZED, maSoThue := UNRECOGNIZED, maCQT := UNRECOGNIZED
    kyHieu := UNRECOGNIZED, phiPV := UNRECOGNIZED }

/-- The fully sentineled record for a file name. -/
def sentinelRecord (filename : String) : InvoiceRecord :=
  sentinelFill (initRecord filename)

/-- `re.search(r"0'}([\d\.,]+)'\}'\}", line)`: leftmost occurrence of
`0'}` + a non-empty run of digits/dots/commas + `'}'}`; returns the whole
match and the captured run.  (Backtracking cannot shorten the greedy run
because `'` is not in the character class.) -/
def garbFind : List Char → Option (List Char × List Char)
  | [] => none
  | c :: cs =>
    if startsWithL ['0', '\'', '}'] (c :: cs) then
      let rest := (c :: cs).drop 3
      let digits := rest.takeWhile (fun x => isDigitCh x || x = '.' || x = ',')
      let after := rest.drop digits.length
      if digits ≠ [] ∧ startsWithL ['\'', '}', '\'', '}'] after then
        some (['0', '\'', '}'] ++ digits ++ ['\'', '}', '\'', '}'], digits)
      else garbFind cs
    else garbFind cs

/-- One pass of the garbage-token removals (line 1280). -/
def rmGarbTokens (m : List Char) : List Char :=
  replL (replL (replL (replL m ['0', '\'', '}'] []) ['\'', '}', '\'', '}'] [])
    ['\'', '}'] []) ['{', '\''] []

/-- Cleanup of a single line (lines 1254-1290): hidden-total recovery, three
rounds of token removal, skipping of `{...}`/`'...'` lines, and removal of
soft hyphens and null bytes.  Returns the kept line (or `none` when the line
is dropped) together with the possibly updated "Số tiền sau" value. -/
def cleanupLine (line : List Char) (tot : String) : Option (List Char) × String :=
  let lineStrip := pyStrip line
  let found := garbFind line
  let tot' := match found with
    | some (_, g1) => if tot = "" then (⟨g1⟩ : String) else tot
    | none => tot
  let line1 := match found with
    | some (g0, g1) => replL line g0 (' ' :: (g1 ++ [' ']))
    | none => line
  let line2 := rmGarbTokens (rmGarbTokens (rmGarbTokens line1))
  let skip :=
    (match lineStrip with | '{' :: _ => true | _ => false) ||
    (match lineStrip with
     | '\'' :: _ => lineStrip.getLast? = some '\''
     | _ => false)
  if skip then (none, tot')
  else (some ((line2.filter (fun c => c ≠ '\xad')).filter (fun c => c ≠ '\x00')), tot')

/-- The cleanup loop over all lines (lines 1249-1291), threading the
"Số tiền sau" candidate recovered from garbage. -/
def normalizeText (t : String) (tot0 : String) : String × String :=
  let t1 := pyReplace (pyReplace t "\r\n" "\n") "\r" "\n"
  let step := (splitNl t1.toList).foldl
    (fun (acc : List (List Char) × String) ln =>
      match cleanupLine ln acc.2 with
      | (some l, tot) => (acc.1 ++ [l], tot)
      | (none, tot) => (acc.1, tot)) ([], tot0)
  (⟨joinNl step.1⟩, step.2)

/-- Outcome of the routing prefix of `extract_invoice_data`: an early return
with a finished record, continuation into the OCR extraction path, or
continuation into the main extraction path with the cleaned text. -/
inductive RouteOutcome where
  | done (record : InvoiceRecord) (items : List SvcItem)
  | ocrPath (ocrText : String)
  | mainPath (cleaned : String) (dataSoFar : InvoiceRecord)
deriving DecidableEq, Repr

/-- The routing prefix of `extract_invoice_data` (lines 1151-1325):
`textLayer` is the concatenated page text from the PDF text layer, `ocrText`
the result of `ocr_pdf_to_text` (empty on OCR failure), `fallbackText` the
content of the sibling `.txt` fallback file when one exists. -/
def extractRoute (textLayer ocrText : String) (fallbackText : Option String)
    (filename : String) : RouteOutcome :=
  let data := initRecord filename
  if pyStrip textLayer.toList = [] then
    if pyStrip ocrText.toList = [] then RouteOutcome.done data []
    else RouteOutcome.ocrPath ocrText
  else
    let norm := normalizeText textLayer data.soTienSau
    let data := { data with soTienSau := norm.2 }
    let cleaned :=
      if norm.1 = "" then
        match fallbackText with
        | some t => t
        | none => norm.1
      else norm.1
    if pyStrip cleaned.toList = [] then RouteOutcome.done (sentinelFill data) []
    else RouteOutcome.mainPath cleaned data

/-! ### Claim C1 -/

/-- C1 counterexample: with an empty text layer and an empty OCR result,
`extract_invoice_data` returns the record with every non-filename field
blank (`""`), not the "không nhận diện được" sentinel — the line 1247 path
(`return data, []` after "OCR also failed") never writes the sentinel. -/
theorem claim_C1_terminal_fallback_counterexample :
    extractRoute "" "" none "a.pdf" = RouteOutcome.done (initRecord "a.pdf") [] ∧
    (initRecord "a.pdf").donViBan = "" ∧
    "" ≠ UNRECOGNIZED := by
  refine ⟨by decide, by decide, by decide⟩

/-- C1 amended: when text layer and OCR are both blank the function returns
the all-blank record with zero line items; the all-sentinel record is
produced exactly on the other terminal path, where the text layer is
non-blank but normalization leaves no text (and no fallback text file
exists). -/
theorem claim_C1_terminal_fallback_amended (t ocr fn : String) :
    (∀ fb : Option String, pyStrip t.toList = [] → pyStrip ocr.toList = [] →
      extractRoute t ocr fb fn = RouteOutcome.done (initRecord fn) []) ∧
    (pyStrip t.toList ≠ [] →
      pyStrip (normalizeText t "").1.toList = [] →
      extractRoute t ocr none fn = RouteOutcome.done (sentinelRecord fn) []) := by
  constructor
  · intro fb h1 h2
    unfold extractRoute
    rw [if_pos h1, if_pos h2]
  · intro h1 h2
    unfold extractRoute
    rw [if_neg h1]
    show (if pyStrip (if (normalizeText t "").1 = "" then (normalizeText t "").1
            else (normalizeText t "").1).toList = [] then _ else _) = _
    rw [ite_self, if_pos h2]
    rfl

theorem claim_C1_terminal_fallback_amended_witness :
    (pyStrip ("" : String).toList = [] ∧ pyStrip ("" : String).toList = [] ∧
      extractRoute "" "" none "a.pdf" = RouteOutcome.done (initRecord "a.pdf") []) ∧
    (pyStrip ("\x7bx" : String).toList ≠ [] ∧
      pyStrip (normalizeText "\x7bx" "").1.toList = [] ∧
      extractRoute "\x7bx" "" none "a.pdf" =
        RouteOutcome.done (sentinelRecord "a.pdf") []) :=
  ⟨⟨by decide, by decide,
    (claim_C1_terminal_fallback_amended "" "" "a.pdf").1 none (by decide) (by decide)⟩,
   ⟨by decide, by decide,
    (claim_C1_terminal_fallback_amended "\x7bx" "" "a.pdf").2 (by decide) (by decide)⟩⟩

/-! ### Claim C10: the key set of the `data` dict

`extract_invoice_data` creates `data` with 19 literal keys (lines 1126-1148)
and never deletes a key (`del`/`pop`/`clear` do not occur).  The lists below
transcribe, from the source, every key expression that can appear as an
assignment target `data[k] = ...` after initialisation.  Assignments whose
key ranges over the dict itself (the sentinel loop at 1322-1324, which
explicitly skips "Tên file", and the cleanup loop at 2462-2464) and the
OCR merge at 1166-1168 (guarded by `if key in data`) cannot introduce keys
either; for the merge, the list of keys `extract_ocr_invoice_fields` can
produce is transcribed separately to show it never supplies "Tên file".

The key-SET invariant is therefore sound — but the cleanup loop at
lines 2462-2464 (`for k, v in data.items(): data[k] =
clean_string_value(v)`) does overwrite the VALUE of every key, including
"Tên file": on the main path the returned record carries
`clean_string_value(filename)` (modelled by `recCleanAll`), which differs
from the input file name whenever it contains a tab, carriage return, soft
hyphen, or surplus whitespace.  The claim's "always equals the input file
name" conjunct is settled below, after the cascade lemmas. -/

/-- The 19 keys of the initial `data` dict, in source order (lines 1126-1148). -/
def initKeys : List String :=
  ["Tên file", "Ngày hóa đơn", "Số hóa đơn", "Đơn vị bán", "Phân loại",
   "Số tiền trước Thuế", "Thuế 0%", "Thuế 5%", "Thuế 8%", "Thuế 10%",
   "Thuế khác", "Tiền thuế", "Số tiền sau", "Link lấy hóa đơn", "Mã tra cứu",
   "Mã số thuế", "Mã CQT", "Ký hiệu", "Phí PV"]

/-- The four per-rate bucket keys: every dynamic key the function builds is
`f"Thuế {r}%"` with `r` drawn from `[0, 5, 8, 10]` (lines 2006-2008,
2320-2331, 2401-2403, 2455-2457, 2470) or `"Thuế " + rate_str` with
`rate_str` from the regex alternation `(10%|8%|5%|0%)` (line 2272). -/
def taxBucketKeys : List String := ["Thuế 0%", "Thuế 5%", "Thuế 8%", "Thuế 10%"]

/-- Every assignment-target key of `extract_invoice_data` after
initialisation (lines 1151-2526), literal targets and the expanded ranges of
the bounded dynamic targets (`column` from the fixed pattern tables at
1911-1963, `col` from the validation triple at 2155, `c` from the bucket
list at 2427-2429, `k` from `money_keys` at 2481, `key`/`rate_key` per the
rate guards). -/
def extractAssignKeys : List String :=
  ["Số hóa đơn",          -- 1206, 1494, 1511
   "Mã số thuế",          -- 1221, 1374, 1386, 1397, 1442, 1753, 1769
   "Phân loại",           -- 1235, 1238, 1240, 1242, 2036
   "Số tiền sau",         -- 1270, 2023, 2077, 2081, 2093-2102, 2114, 2127,
                          -- 2147, 2151, 2165, 2181, 2204, 2236, 2301, 2341
   "Ngày hóa đơn",        -- 1354
   "Đơn vị bán",          -- 1576, 1621, 1633, 1645, 2043, 2501, 2507, 2524
   "Mã CQT",              -- 1652, 1704, 1785
   "Ký hiệu",             -- 1667
   "Mã tra cứu",          -- 1699, 1727, 1848, 2309, 2315
   "Link lấy hóa đơn",    -- 1817
   "Số tiền trước Thuế",  -- 1868, 1881, 2027, 2079, 2084, 2095, 2100,
                          -- 2128-2129, 2141, 2190, 2194, 2207, 2223, 2225, 2300
   "Tiền thuế",           -- 1900, 1979, 2078, 2094, 2099, 2142, 2285, 2299,
                          -- 2333, 2411, 2426, 2443
   "Phí PV",              -- 1993
   "Thuế khác",           -- 2010, 2178, 2323, 2343, 2472, 2479
   "Thuế 0%", "Thuế 5%", "Thuế 8%", "Thuế 10%"]  -- 1945, 1969, 1972, 2008,
                          -- 2273, 2322, 2331, 2403, 2429, 2457

/-- The keys that `extract_ocr_invoice_fields` (lines 349-649) can place in
the dict it returns (its `data` starts empty at line 351). -/
def ocrFieldKeys : List String :=
  ["Ký hiệu", "Đơn vị bán", "Số hóa đơn", "Ngày hóa đơn", "Mã số thuế",
   "Số tiền trước Thuế", "Tiền thuế", "Thuế 8%", "Thuế 10%", "Thuế 5%",
   "Thuế khác", "Số tiền sau", "Mã tra cứu", "Mã CQT", "Link lấy hóa đơn"]

/-! ### Auxiliaries for the reconciliation cascade -/

/-- Python's `round` (banker's rounding, half to even) of the exact quotient
`num / den`, for `den > 0` (every call site divides by `100` or by a
checked-positive amount).  The source computes `round(t / p * 100)` etc.
with binary floats; the embedding rounds the exact rational value. -/
def pyRoundRat (num den : Int) : Int :=
  let q := num.fdiv den
  let r := num - q * den
  if 2 * r < den then q
  else if den < 2 * r then q + 1
  else if q % 2 = 0 then q else q + 1

/-- Ascending stable insertion (Python `list.sort()` for the ≤3-element
lists of the summary/grand-total parsing). -/
def insertSorted (x : Int) : List Int → List Int
  | [] => [x]
  | y :: ys => if x ≤ y then x :: y :: ys else y :: insertSorted x ys

def sortInts (l : List Int) : List Int := l.foldr insertSorted []

/-- Leftmost index at which `pat` occurs in the list. -/
def findSub (pat : List Char) : List Char → Option Nat
  | [] => if pat = [] then some 0 else none
  | c :: cs =>
    if startsWithL pat (c :: cs) then some 0
    else (findSub pat cs).map (· + 1)

/-- Python `pat in s`. -/
def hasSub (l pat : List Char) : Bool := (findSub pat l).isSome

/-- Characters of the `[\d\.,]` class. -/
def classGarb (c : Char) : Bool := isDigitCh c || c = '.' || c = ','

/-- Matching engine for `re.search(r"0'}.*?([\d\.,]+).*?'\}'\}", val, re.DOTALL)`
after the literal `0'}` has matched: the lazy `.*?` stops at the first
`[\d\.,]` character, the greedy class run follows, and the second lazy `.*?`
extends to the first later `'}'}`.  (Shrinking the greedy run cannot help:
the characters inside the run are class characters, and `'}'}` starts with a
quote, so the set of viable end positions is unchanged — hence this
backtracking-free scan is exact.)  Returns the number of characters matched
after `0'}` and the captured group. -/
def giTry (rest : List Char) : Option (Nat × List Char) :=
  let a := rest.takeWhile (fun c => !(classGarb c))
  let rest2 := rest.drop a.length
  let run := rest2.takeWhile classGarb
  if run = [] then none
  else
    let after := rest2.drop run.length
    match findSub ['\'', '}', '\'', '}'] after with
    | some b => some (a.length + run.length + b + 4, run)
    | none => none

/-- Leftmost match of `re.search(r"0'}.*?([\d\.,]+).*?'\}'\}", ...)`:
whole match and captured group. -/
def giMatch : List Char → Option (List Char × List Char)
  | [] => none
  | c :: cs =>
    if startsWithL ['0', '\'', '}'] (c :: cs) then
      match giTry ((c :: cs).drop 3) with
      | some (len, run) => some ((c :: cs).take (3 + len), run)
      | none => giMatch cs
    else giMatch cs

/-- Words of a character list, split on whitespace runs (Python `s.split()`). -/
def splitWsAux : List Char → List Char → List (List Char)
  | [], cur => if cur = [] then [] else [cur.reverse]
  | c :: cs, cur =>
    if c.isWhitespace then
      if cur = [] then splitWsAux cs [] else cur.reverse :: splitWsAux cs []
    else splitWsAux cs (c :: cur)

def splitWs (l : List Char) : List (List Char) := splitWsAux l []

def joinSpace : List (List Char) → List Char
  | [] => []
  | [w] => w
  | w :: ws => w ++ ' ' :: joinSpace ws

/-- `clean_string_value` (lines 2588-2596): drop `\r` and soft hyphens, turn
tabs into spaces, then normalise whitespace via `" ".join(val.split())`. -/
def cleanStr (s : String) : String :=
  let l := ((s.toList.filter (fun c => c ≠ '\r')).filter
    (fun c => c ≠ '\xad')).map (fun c => if c = '\t' then ' ' else c)
  ⟨joinSpace (splitWs l)⟩

/-! ### The tax-reconciliation cascade (`extract_invoice_data`,
lines 2140-2526).

Text-dependent inputs (regex searches over `full_text`) enter through
`TextSignals`; a run in which none of those patterns matched uses
`noSignals`.  Two blocks of this segment that neither read nor write any
money field are not modelled as part of the cascade: the seller-name final
cleanup (lines 2495-2524, touches only "Đơn vị bán") and the `print`/debug
statements.  The inner `parse_money` always returns an `int`, so the
source's `is not None` tests on its results are identically true; branches
they guard are transcribed accordingly. -/

/-- The regex alternation `(10%|8%|5%|0%)` of the summary-line scan
(line 2247). -/
inductive RateTag where
  | r0
  | r5
  | r8
  | r10
deriving DecidableEq, Repr

/-- `rate_key = f"Thuế {rate_str}"` with `rate_str` the captured
alternation (line 2272-2273). -/
def setBucketTag (t : RateTag) (v : String) (d : InvoiceRecord) : InvoiceRecord :=
  match t with
  | RateTag.r0 => { d with thue0 := v }
  | RateTag.r5 => { d with thue5 := v }
  | RateTag.r8 => { d with thue8 := v }
  | RateTag.r10 => { d with thue10 := v }

/-- `rate_key = f"Thuế {data['Thuế khác']}%"` for the guarded values
`"10" | "8" | "5" | "0"` (lines 2320, 2470). -/
def getBucketStr (rs : String) (d : InvoiceRecord) : String :=
  if rs = "10" then d.thue10
  else if rs = "8" then d.thue8
  else if rs = "5" then d.thue5
  else if rs = "0" then d.thue0
  else ""

def setBucketStr (rs : String) (v : String) (d : InvoiceRecord) : InvoiceRecord :=
  if rs = "10" then { d with thue10 := v }
  else if rs = "8" then { d with thue8 := v }
  else if rs = "5" then { d with thue5 := v }
  else if rs = "0" then { d with thue0 := v }
  else d

/-- Results of the `full_text` regex searches consumed by the cascade. -/
structure TextSignals where
  /-- `"SALES INVOICE" in full_text or "HÓA ĐƠN BÁN HÀNG" in full_text` (2146). -/
  salesInvoice : Bool
  /-- group 1 of `re.search(r'Cộng tiền bán hàng[^:]*[:\s]*([\d\.,]+)', ...)` (2149). -/
  salesMatch : Option String
  /-- group 1 of `re.search(r"0'}([\d\.,]+)'\}'\}", full_text)` (2205). -/
  garbageTotal : Option String
  /-- the `re.findall` tuples of the summary-line scan (2247): rate
  alternation plus up to three number strings (`""` = absent group). -/
  summaryLines : List (RateTag × String × String × String)
  /-- groups of the grand-total search (2290). -/
  grandTotal : Option (String × String × String)
  /-- group 1 of the lookup-code search (2307). -/
  lookupCode : Option String
  /-- group 1 of the `Mã tra cứu` search (2313). -/
  pcCode : Option String
deriving Repr

/-- A run in which no `full_text` pattern of the cascade matched. -/
def noSignals : TextSignals :=
  { salesInvoice := false, salesMatch := none, garbageTotal := none
    summaryLines := [], grandTotal := none, lookupCode := none, pcCode := none }

/-- Lines 2145-2151: sales-invoice total fallback. -/
def recSales (sig : TextSignals) (d : InvoiceRecord) : InvoiceRecord :=
  if d.soTienSau = "" ∧ d.soTienTruocThue ≠ "" then
    if sig.salesInvoice then { d with soTienSau := d.soTienTruocThue }
    else
      match sig.salesMatch with
      | some s => { d with soTienSau := s }
      | none => d
  else d

/-- Lines 2153-2158: the noise floor — each of the three summary fields is
cleared when it parses below 1000 (the inner parser never returns `None`,
so the `is not None` test always holds; a blank field parses to 0 and is
"cleared" to blank again). -/
def recNoise (d : InvoiceRecord) : InvoiceRecord :=
  let d := if innerParseMoney d.soTienTruocThue < 1000 then { d with soTienTruocThue := "" } else d
  let d := if innerParseMoney d.tienThue < 1000 then { d with tienThue := "" } else d
  if innerParseMoney d.soTienSau < 1000 then { d with soTienSau := "" } else d

/-- Lines 2161-2181: total := pre-tax + tax when total is blank.  Since the
inner parser is total, `before is not None and vat is not None` always
holds and the `elif ... vat is None` branch (no-VAT assumption with the
"Thuế khác" noise clearing) is unreachable. -/
def recTotalCalc (d : InvoiceRecord) : InvoiceRecord :=
  if d.soTienSau = "" then
    { d with soTienSau :=
        innerFormatMoney (innerParseMoney d.soTienTruocThue + innerParseMoney d.tienThue) }
  else d

/-- Lines 2185-2194: reverse derivation of the pre-tax amount. -/
def recReverse (d : InvoiceRecord) : InvoiceRecord :=
  if d.soTienSau ≠ "" ∧ d.soTienTruocThue = "" then
    let after := innerParseMoney d.soTienSau
    let vat := innerParseMoney d.tienThue
    if vat = 0 then { d with soTienTruocThue := d.soTienSau }
    else { d with soTienTruocThue := innerFormatMoney (after - vat) }
  else d

/-- Lines 2200-2207: hidden-garbage total recovery. -/
def recGarbage (sig : TextSignals) (d : InvoiceRecord) : InvoiceRecord :=
  if d.soTienSau = "" then
    match sig.garbageTotal with
    | some val =>
      let d := { d with soTienSau := val }
      if d.soTienTruocThue = "" then { d with soTienTruocThue := val } else d
    | none => d
  else d

/-- Lines 2211-2229: sum line items as a substitute pre-tax value.  At this
point of the source `line_items` is still the empty list initialised at
line 1149 (it is assigned `services` only later, at line 2351), so the body
operates on the empty list and the guard never fires. -/
def recItemsFallback (d : InvoiceRecord) : InvoiceRecord :=
  let lineItems : List SvcItem := []
  if (d.soTienTruocThue = "" ∨ d.soTienSau = "") ∧ lineItems ≠ [] then
    let totalItems := lineItems.foldl
      (fun a it =>
        let amt := innerParseMoney it.amount
        if amt ≠ 0 then a + amt else a) 0
    if totalItems > 0 then
      if d.soTienTruocThue = "" ∧ d.soTienSau = "" then
        { d with soTienTruocThue := innerFormatMoney totalItems }
      else if d.soTienTruocThue = "" then
        { d with soTienTruocThue := innerFormatMoney totalItems }
      else d
    else d
  else d

/-- Lines 2232-2236: re-run of the total calculation. -/
def recReRun (d : InvoiceRecord) : InvoiceRecord :=
  if d.tienThue ≠ "" ∧ d.soTienSau = "" ∧ d.soTienTruocThue ≠ "" then
    let b := innerParseMoney d.soTienTruocThue
    let t := innerParseMoney d.tienThue
    if b ≠ 0 ∧ t ≠ 0 then { d with soTienSau := innerFormatMoney (b + t) } else d
  else d

/-- Lines 2247-2285: summary-table scan.  Per line: parse the (up to three)
non-empty number strings, sort ascending, smallest = tax, store it in the
line's rate bucket, and accumulate; afterwards the accumulated tax total
overrides "Tiền thuế" when it differs.  (`pre_tax_total_calc` is
accumulated by the source but never read afterwards; the `try` body cannot
raise since the inner parser is total.) -/
def summaryStep (acc : InvoiceRecord × Int)
    (rl : RateTag × String × String × String) : InvoiceRecord × Int :=
  let vals := sortInts
    (((if rl.2.1 ≠ "" then [rl.2.1] else []) ++
      (if rl.2.2.1 ≠ "" then [rl.2.2.1] else []) ++
      (if rl.2.2.2 ≠ "" then [rl.2.2.2] else [])).map innerParseMoney)
  if 2 ≤ vals.length then
    let currentTax := vals.headD 0
    (setBucketTag rl.1 (innerFormatMoney currentTax) acc.1, acc.2 + currentTax)
  else acc

def recSummary (lines : List (RateTag × String × String × String))
    (d : InvoiceRecord) : InvoiceRecord :=
  let step := lines.foldl summaryStep (d, 0)
  let d := step.1
  if step.2 > 0 then
    if d.tienThue = "" ∨ innerParseMoney d.tienThue ≠ step.2 then
      { d with tienThue := innerFormatMoney step.2 }
    else d
  else d

/-- Lines 2290-2303: grand-total line with three numbers; sorted ascending
they are (tax, pre-tax, total), overwriting all three fields.  (All three
parses succeed, so `len(vals) == 3` always holds.) -/
def recGrand (sig : TextSignals) (d : InvoiceRecord) : InvoiceRecord :=
  match sig.grandTotal with
  | some g =>
    let vals := sortInts
      [innerParseMoney g.1, innerParseMoney g.2.1, innerParseMoney g.2.2]
    { d with tienThue := innerFormatMoney (vals.getD 0 0)
             soTienTruocThue := innerFormatMoney (vals.getD 1 0)
             soTienSau := innerFormatMoney (vals.getD 2 0) }
  | none => d

/-- Lines 2305-2315: lookup-code recovery (the second pattern overrides the
first when both match). -/
def recLookup (sig : TextSignals) (d : InvoiceRecord) : InvoiceRecord :=
  if d.maTraCuu = "" then
    let d := match sig.lookupCode with
      | some c => { d with maTraCuu := c }
      | none => d
    match sig.pcCode with
    | some c => { d with maTraCuu := c }
    | none => d
  else d

/-- Lines 2319-2345: fill the bucket named by a bare "Thuế khác" rate.
(`int(data["Thuế khác"])` cannot raise under the membership guard, so the
`except: pass` is unreachable.) -/
def recKhacFill (d : InvoiceRecord) : InvoiceRecord :=
  if d.thueKhac ∈ (["10", "8", "5", "0"] : List String) then
    if getBucketStr d.thueKhac d = "" ∧ d.tienThue ≠ "" then
      let d' := setBucketStr d.thueKhac d.tienThue d
      { d' with thueKhac := "" }
    else if getBucketStr d.thueKhac d = "" ∧ d.soTienTruocThue ≠ "" then
      let rate := (pyIntOpt d.thueKhac.toList).getD 0
      let preV := innerParseMoney d.soTienTruocThue
      if preV ≠ 0 then
        let calcTax := pyRoundRat (preV * rate) 100
        let d' := setBucketStr d.thueKhac (innerFormatMoney calcTax) d
        let d' := if d'.tienThue = "" then
            { d' with tienThue := innerFormatMoney calcTax } else d'
        let currTotal := innerParseMoney d'.soTienSau
        let preVal := innerParseMoney d'.soTienTruocThue
        let d' := if d'.soTienSau = "" ∨
            (currTotal ≠ 0 ∧ preVal ≠ 0 ∧ |currTotal - preVal| < 100) then
            { d' with soTienSau := innerFormatMoney (preV + calcTax) } else d'
        { d' with thueKhac := "" }
      else d
    else d
  else d

/-- Item garbage cleanup (lines 2353-2366) applied to the `name` and
`amount` values. -/
def giCleanVal (s : String) : String :=
  let l := s.toList
  if hasSub l ['0', '\'', '}'] || hasSub l ['}', '\'', '}'] then
    match giMatch l with
    | some (g0, _) => ⟨pyStrip (replL l g0 [])⟩
    | none =>
      ⟨pyStrip (replL (replL (replL (replL l ['0', '\'', '}'] [])
        ['\'', '}', '\'', '}'] []) ['\'', '}'] []) ['{', '\''] [])⟩
  else s

def itemGarbClean (it : SvcItem) : SvcItem :=
  { it with name := giCleanVal it.name, amount := giCleanVal it.amount }

/-- The per-rate estimated tax aggregation over items (lines 2369-2392):
`tax_map` as a quadruple for rates 0/5/8/10 plus the `has_item_tax` flag. -/
def itemTaxFold (items : List SvcItem) : (Int × Int × Int × Int) × Bool :=
  items.foldl
    (fun acc it =>
      match it.taxRate with
      | none => acc
      | some rs =>
        if rs ≠ "" ∧ it.amount ≠ "" then
          match pyIntOpt rs.toList with
          | none => acc
          | some r =>
            if r = 0 ∨ r = 5 ∨ r = 8 ∨ r = 10 then
              let amt := innerParseMoney it.amount
              let tv := pyRoundRat (amt * r) 100
              (((if r = 0 then acc.1.1 + tv else acc.1.1),
                (if r = 5 then acc.1.2.1 + tv else acc.1.2.1),
                (if r = 8 then acc.1.2.2.1 + tv else acc.1.2.2.1),
                (if r = 10 then acc.1.2.2.2 + tv else acc.1.2.2.2)), true)
            else acc
        else acc)
    ((0, 0, 0, 0), false)

/-- One bucket update of the fill loop (lines 2393-2403): overwrite when the
current value is 0/blank or differs from the aggregate by more than 50% of
the aggregate (`diff > tax_map[r] * 0.5`, exact as `2 * diff > tax_map[r]`). -/
def fillBucket (m : Int) (cur : String) : String :=
  if m > 0 then
    let curV := innerParseMoney cur
    if curV = 0 ∨ 2 * |curV - m| > m then innerFormatMoney m else cur
  else cur

/-- The tax sanity check (lines 2415-2431). -/
def recSanity (d : InvoiceRecord) : InvoiceRecord :=
  if d.tienThue ≠ "" ∧ (d.soTienTruocThue ≠ "" ∨ d.soTienSau ≠ "") then
    let t := innerParseMoney d.tienThue
    let p := innerParseMoney d.soTienTruocThue
    let p := if p = 0 ∧ d.soTienSau ≠ "" then innerParseMoney d.soTienSau else p
    if t ≠ 0 ∧ p ≠ 0 ∧ p > 10000 ∧ t ≥ p then
      let d := { d with tienThue := "" }
      let d := if innerParseMoney d.thue0 = t then { d with thue0 := "" } else d
      let d := if innerParseMoney d.thue5 = t then { d with thue5 := "" } else d
      let d := if innerParseMoney d.thue8 = t then { d with thue8 := "" } else d
      let d := if innerParseMoney d.thue10 = t then { d with thue10 := "" } else d
      if innerParseMoney d.thueKhac = t then { d with thueKhac := "" } else d
    else d
  else d

/-- Lines 2349-2431: the `if services:` block — item cleanup, per-rate tax
aggregation, total-tax recomputation, and the final sanity check. -/
def recServices (services : List SvcItem) (d : InvoiceRecord) : InvoiceRecord :=
  if services ≠ [] then
    let items := services.map itemGarbClean
    let agg := itemTaxFold items
    let d :=
      if agg.2 then
        let d := { d with thue0 := fillBucket agg.1.1 d.thue0 }
        let d := { d with thue5 := fillBucket agg.1.2.1 d.thue5 }
        let d := { d with thue8 := fillBucket agg.1.2.2.1 d.thue8 }
        let d := { d with thue10 := fillBucket agg.1.2.2.2 d.thue10 }
        let totalItemTax := agg.1.1 + agg.1.2.1 + agg.1.2.2.1 + agg.1.2.2.2
        let currTotalTax := innerParseMoney d.tienThue
        if currTotalTax = 0 ∨ (totalItemTax > currTotalTax ∧ totalItemTax > 1000) then
          { d with tienThue := innerFormatMoney totalItemTax }
        else d
      else d
    recSanity d
  else d

/-- Lines 2437-2443 (outside the big `try`): total tax from the bucket sum. -/
def recTaxFromBuckets (d : InvoiceRecord) : InvoiceRecord :=
  if d.tienThue = "" then
    let calcSum := innerParseMoney d.thue0 + innerParseMoney d.thue5 +
      innerParseMoney d.thue8 + innerParseMoney d.thue10 +
      innerParseMoney d.thueKhac
    if calcSum > 0 then { d with tienThue := innerFormatMoney calcSum } else d
  else d

/-- Lines 2448-2459: the final rate-inference pass — when total tax and
pre-tax are present, all four buckets are blank, both parse positive and
`round(t / p * 100)` lands on a recognised rate, copy the tax string into
that bucket. -/
def recRateInfer (d : InvoiceRecord) : InvoiceRecord :=
  if d.tienThue ≠ "" ∧ d.soTienTruocThue ≠ "" ∧
      d.thue0 = "" ∧ d.thue5 = "" ∧ d.thue8 = "" ∧ d.thue10 = "" then
    let t := innerParseMoney d.tienThue
    let p := innerParseMoney d.soTienTruocThue
    if t > 0 ∧ p > 0 then
      let rate := pyRoundRat (t * 100) p
      if rate = 0 then { d with thue0 := d.tienThue }
      else if rate = 5 then { d with thue5 := d.tienThue }
      else if rate = 8 then { d with thue8 := d.tienThue }
      else if rate = 10 then { d with thue10 := d.tienThue }
      else d
    else d
  else d

/-- Lines 2462-2464: `clean_string_value` over every field. -/
def recCleanAll (d : InvoiceRecord) : InvoiceRecord :=
  { tenFile := cleanStr d.tenFile, ngayHoaDon := cleanStr d.ngayHoaDon
    soHoaDon := cleanStr d.soHoaDon, donViBan := cleanStr d.donViBan
    phanLoai := cleanStr d.phanLoai, soTienTruocThue := cleanStr d.soTienTruocThue
    thue0 := cleanStr d.thue0, thue5 := cleanStr d.thue5
    thue8 := cleanStr d.thue8, thue10 := cleanStr d.thue10
    thueKhac := cleanStr d.thueKhac, tienThue := cleanStr d.tienThue
    soTienSau := cleanStr d.soTienSau, linkLayHoaDon := cleanStr d.linkLayHoaDon
    maTraCuu := cleanStr d.maTraCuu, maSoThue := cleanStr d.maSoThue
    maCQT := cleanStr d.maCQT, kyHieu := cleanStr d.kyHieu
    phiPV := cleanStr d.phiPV }

/-- Lines 2467-2479: "Thuế khác" cleanup. -/
def recKhacClean (d : InvoiceRecord) : InvoiceRecord :=
  if d.thueKhac ≠ "" then
    let d := if d.thueKhac ∈ (["10", "8", "5", "0"] : List String) ∧
        getBucketStr d.thueKhac d ≠ "" then { d with thueKhac := "" } else d
    let v := innerParseMoney d.thueKhac
    let tn := innerParseMoney d.soTienSau
    let txn := innerParseMoney d.tienThue
    if v ≠ 0 ∧ (v = tn ∨ v = txn) then { d with thueKhac := "" } else d
  else d

/-- Lines 2481-2493: final money formatting over the eight money keys (a
field is re-formatted when it is non-blank and parses non-zero). -/
def moneyCleanField (s : String) : String :=
  if s ≠ "" ∧ innerParseMoney s ≠ 0 then innerFormatMoney (innerParseMoney s)
  else s

def recMoneyClean (d : InvoiceRecord) : InvoiceRecord :=
  { d with soTienTruocThue := moneyCleanField d.soTienTruocThue
           tienThue := moneyCleanField d.tienThue
           thue0 := moneyCleanField d.thue0
           thue5 := moneyCleanField d.thue5
           thue8 := moneyCleanField d.thue8
           thue10 := moneyCleanField d.thue10
           thueKhac := moneyCleanField d.thueKhac
           soTienSau := moneyCleanField d.soTienSau }

/-- The complete reconciliation cascade, lines 2140-2526 (after the
pattern-matching extraction phase; `services` is the result of
`extract_services_from_text`). -/
def reconcileMoney (sig : TextSignals) (services : List SvcItem)
    (d : InvoiceRecord) : InvoiceRecord :=
  let d := recSales sig d
  let d := recNoise d
  let d := recTotalCalc d
  let d := recReverse d
  let d := recGarbage sig d
  let d := recItemsFallback d
  let d := recReRun d
  let d := recSummary sig.summaryLines d
  let d := recGrand sig d
  let d := recLookup sig d
  let d := recKhacFill d
  let d := recServices services d
  let d := recTaxFromBuckets d
  let d := recRateInfer d
  let d := recCleanAll d
  let d := recKhacClean d
  recMoneyClean d

/-! ### Lemmas about the cascade -/

/-- A record that is blank except for the three summary money fields (the
shape in which the reconciliation identities are stated). -/
def quietStart (pre tax tot : String) : InvoiceRecord :=
  { initRecord "f.pdf" with soTienTruocThue := pre, tienThue := tax, soTienSau := tot }

@[simp] lemma quietStart_pre (a b c : String) : (quietStart a b c).soTienTruocThue = a := rfl
@[simp] lemma quietStart_tax (a b c : String) : (quietStart a b c).tienThue = b := rfl
@[simp] lemma quietStart_tot (a b c : String) : (quietStart a b c).soTienSau = c := rfl
@[simp] lemma quietStart_khac (a b c : String) : (quietStart a b c).thueKhac = "" := rfl
@[simp] lemma quietStart_t0 (a b c : String) : (quietStart a b c).thue0 = "" := rfl
@[simp] lemma quietStart_t5 (a b c : String) : (quietStart a b c).thue5 = "" := rfl
@[simp] lemma quietStart_t8 (a b c : String) : (quietStart a b c).thue8 = "" := rfl
@[simp] lemma quietStart_t10 (a b c : String) : (quietStart a b c).thue10 = "" := rfl
@[simp] lemma quietStart_lookup (a b c : String) : (quietStart a b c).maTraCuu = "" := rfl

@[simp] lemma quietStart_upd_pre (a b c x : String) :
    ({ quietStart a b c with soTienTruocThue := x }) = quietStart x b c := rfl
@[simp] lemma quietStart_upd_tax (a b c x : String) :
    ({ quietStart a b c with tienThue := x }) = quietStart a x c := rfl
@[simp] lemma quietStart_upd_tot (a b c x : String) :
    ({ quietStart a b c with soTienSau := x }) = quietStart a b x := rfl

@[simp] lemma innerParseMoney_empty : innerParseMoney "" = 0 := rfl

lemma recSales_noSignals (d : InvoiceRecord) : recSales noSignals d = d := by
  unfold recSales noSignals
  split <;> rfl

lemma recGarbage_noSignals (d : InvoiceRecord) : recGarbage noSignals d = d := by
  unfold recGarbage noSignals
  split <;> rfl

lemma recItemsFallback_id (d : InvoiceRecord) : recItemsFallback d = d := by
  unfold recItemsFallback
  simp

lemma recSummary_nil (d : InvoiceRecord) : recSummary [] d = d := by
  unfold recSummary
  simp

lemma recGrand_noSignals (d : InvoiceRecord) : recGrand noSignals d = d := rfl

lemma recLookup_noSignals (d : InvoiceRecord) : recLookup noSignals d = d := by
  unfold recLookup noSignals
  split <;> rfl

lemma recServices_nil (d : InvoiceRecord) : recServices [] d = d := by
  unfold recServices
  simp

/-- Under quiescent text signals and without line items, the cascade is the
composition of the remaining ten steps. -/
lemma reconcile_noSignals_nil (d : InvoiceRecord) :
    reconcileMoney noSignals [] d =
      recMoneyClean (recKhacClean (recCleanAll (recRateInfer (recTaxFromBuckets
        (recKhacFill (recReRun (recReverse (recTotalCalc (recNoise d))))))))) := by
  simp only [reconcileMoney, recSales_noSignals, recGarbage_noSignals,
    recItemsFallback_id, show noSignals.summaryLines = ([] : List _) from rfl,
    recSummary_nil, recGrand_noSignals, recLookup_noSignals, recServices_nil]

lemma recRateInfer_pre (d : InvoiceRecord) :
    (recRateInfer d).soTienTruocThue = d.soTienTruocThue := by
  simp only [recRateInfer]
  split_ifs <;> rfl

lemma recRateInfer_tax (d : InvoiceRecord) :
    (recRateInfer d).tienThue = d.tienThue := by
  simp only [recRateInfer]
  split_ifs <;> rfl

lemma recRateInfer_tot (d : InvoiceRecord) :
    (recRateInfer d).soTienSau = d.soTienSau := by
  simp only [recRateInfer]
  split_ifs <;> rfl

lemma recKhacClean_pre (d : InvoiceRecord) :
    (recKhacClean d).soTienTruocThue = d.soTienTruocThue := by
  simp only [recKhacClean]
  split_ifs <;> rfl

lemma recKhacClean_tax (d : InvoiceRecord) :
    (recKhacClean d).tienThue = d.tienThue := by
  simp only [recKhacClean]
  split_ifs <;> rfl

lemma recKhacClean_tot (d : InvoiceRecord) :
    (recKhacClean d).soTienSau = d.soTienSau := by
  simp only [recKhacClean]
  split_ifs <;> rfl

@[simp] lemma recCleanAll_pre (d : InvoiceRecord) :
    (recCleanAll d).soTienTruocThue = cleanStr d.soTienTruocThue := rfl
@[simp] lemma recCleanAll_tax (d : InvoiceRecord) :
    (recCleanAll d).tienThue = cleanStr d.tienThue := rfl
@[simp] lemma recCleanAll_tot (d : InvoiceRecord) :
    (recCleanAll d).soTienSau = cleanStr d.soTienSau := rfl

@[simp] lemma recMoneyClean_pre (d : InvoiceRecord) :
    (recMoneyClean d).soTienTruocThue = moneyCleanField d.soTienTruocThue := rfl
@[simp] lemma recMoneyClean_tax (d : InvoiceRecord) :
    (recMoneyClean d).tienThue = moneyCleanField d.tienThue := rfl
@[simp] lemma recMoneyClean_tot (d : InvoiceRecord) :
    (recMoneyClean d).soTienSau = moneyCleanField d.soTienSau := rfl

lemma splitWsAux_no_ws (l : List Char) (h : ∀ c ∈ l, c.isWhitespace = false) :
    ∀ cur : List Char, splitWsAux l cur =
      if cur = [] ∧ l = [] then [] else [cur.reverse ++ l] := by
  induction l with
  | nil =>
    intro cur
    unfold splitWsAux
    by_cases hc : cur = [] <;> simp [hc]
  | cons c cs ih =>
    intro cur
    have hc : c.isWhitespace = false := h c (List.mem_cons_self _ _)
    have hcs : ∀ x ∈ cs, x.isWhitespace = false :=
      fun x hx => h x (List.mem_cons_of_mem _ hx)
    unfold splitWsAux
    rw [if_neg (by simp [hc]), ih hcs (c :: cur)]
    simp

/-- `clean_string_value` is the identity on strings whose characters are
neither whitespace nor soft hyphens. -/
lemma cleanStr_eq_self (s : String)
    (h : ∀ c ∈ s.toList, c.isWhitespace = false ∧ c ≠ '\xad') : cleanStr s = s := by
  have hr : ∀ c ∈ s.toList, c ≠ '\r' := by
    intro c hc
    rintro rfl
    exact absurd (h _ hc).1 (by decide)
  have ht : ∀ c ∈ s.toList, c ≠ '\t' := by
    intro c hc
    rintro rfl
    exact absurd (h _ hc).1 (by decide)
  unfold cleanStr
  have h1 : s.toList.filter (fun c => decide (c ≠ '\r')) = s.toList :=
    List.filter_eq_self.mpr (by intro c hc; simpa using hr c hc)
  rw [h1]
  have h2 : s.toList.filter (fun c => decide (c ≠ '\xad')) = s.toList :=
    List.filter_eq_self.mpr (by intro c hc; simpa using (h c hc).2)
  rw [h2]
  have hmap : s.toList.map (fun c => if c = '\t' then ' ' else c) = s.toList := by
    rw [show s.toList = s.toList.map id by simp]
    rw [List.map_map]
    refine List.map_congr_left ?_
    intro c hc
    simp only [Function.comp, id]
    rw [if_neg (ht c (by simpa using hc))]
  rw [hmap]
  show (⟨joinSpace (splitWsAux s.toList [])⟩ : String) = s
  rw [splitWsAux_no_ws s.toList (fun c hc => (h c hc).1) []]
  by_cases hnil : s.toList = []
  · rw [if_pos ⟨rfl, hnil⟩]
    cases s with
    | mk data =>
      have : data = [] := hnil
      rw [this]
      rfl
  · rw [if_neg (fun hh => hnil hh.2)]
    show (⟨s.toList⟩ : String) = s
    cases s with
    | mk data => rfl

lemma cleanStr_empty : cleanStr "" = "" := rfl

/-- Formatted money strings contain no whitespace and no soft hyphen. -/
lemma innerFormatMoney_chars (v : Int) :
    ∀ c ∈ (innerFormatMoney v).toList, c.isWhitespace = false ∧ c ≠ '\xad' := by
  intro c hc
  unfold innerFormatMoney at hc
  have hgrp : ∀ n : Nat, c ∈ groupNat '.' n → c.isWhitespace = false ∧ c ≠ '\xad' := by
    intro n hmem
    rcases groupNat_mem '.' n c hmem with h | rfl
    · exact ⟨h.2.2.2.2.2.1, h.2.2.2.2.2.2⟩
    · exact ⟨by decide, by decide⟩
  split at hc
  · rcases List.mem_cons.mp hc with rfl | hmem
    · exact ⟨by decide, by decide⟩
    · exact hgrp _ hmem
  · exact hgrp _ hc

lemma cleanStr_format (v : Int) :
    cleanStr (innerFormatMoney v) = innerFormatMoney v :=
  cleanStr_eq_self _ (innerFormatMoney_chars v)

@[simp] lemma moneyCleanField_empty : moneyCleanField "" = "" := rfl

lemma moneyCleanField_format (v : Int) (h : 0 ≤ v) :
    moneyCleanField (innerFormatMoney v) = innerFormatMoney v := by
  rcases eq_or_lt_of_le h with h0 | h0
  · rw [← h0]
    decide
  · unfold moneyCleanField
    rw [if_pos ⟨innerFormatMoney_ne_empty v, by
      rw [innerParse_innerFormat v h]; omega⟩]
    rw [innerParse_innerFormat v h]

/-! Identity cases of individual cascade steps. -/

lemma recTotalCalc_id (d : InvoiceRecord) (h : d.soTienSau ≠ "") :
    recTotalCalc d = d := by
  unfold recTotalCalc
  rw [if_neg h]

lemma recReverse_id (d : InvoiceRecord) (h : d.soTienTruocThue ≠ "") :
    recReverse d = d := by
  unfold recReverse
  rw [if_neg (fun hh => h hh.2)]

lemma recReRun_id_tot (d : InvoiceRecord) (h : d.soTienSau ≠ "") :
    recReRun d = d := by
  unfold recReRun
  rw [if_neg (fun hh => h hh.2.1)]

lemma recReRun_id_tax (d : InvoiceRecord) (h : d.tienThue = "") :
    recReRun d = d := by
  unfold recReRun
  rw [if_neg (fun hh => hh.1 h)]

lemma recKhacFill_id (d : InvoiceRecord) (h : d.thueKhac = "") :
    recKhacFill d = d := by
  unfold recKhacFill
  rw [if_neg (by rw [h]; decide)]

lemma recTaxFromBuckets_id (d : InvoiceRecord) (h : d.tienThue ≠ "") :
    recTaxFromBuckets d = d := by
  unfold recTaxFromBuckets
  rw [if_neg h]

lemma recTaxFromBuckets_blank (d : InvoiceRecord) (h0 : d.thue0 = "")
    (h5 : d.thue5 = "") (h8 : d.thue8 = "") (h10 : d.thue10 = "")
    (hk : d.thueKhac = "") : recTaxFromBuckets d = d := by
  unfold recTaxFromBuckets
  split
  · rw [h0, h5, h8, h10, hk]
    norm_num
  · rfl

/-! Behaviour of the noise floor and the derivation steps on the quiet
record shapes of the reconciliation identities. -/

lemma recNoise_dir1 (p t : Int) (hp : 1000 ≤ p) (ht : 1000 ≤ t) :
    recNoise (quietStart (innerFormatMoney p) (innerFormatMoney t) "") =
      quietStart (innerFormatMoney p) (innerFormatMoney t) "" := by
  have hP := innerParse_innerFormat p (by omega)
  have hT := innerParse_innerFormat t (by omega)
  simp only [recNoise, quietStart_pre, quietStart_tax, quietStart_tot, hP, hT,
    innerParseMoney_empty,
    show (p < 1000) = False from eq_false (by omega),
    show (t < 1000) = False from eq_false (by omega),
    show ((0 : Int) < 1000) = True from eq_true (by omega),
    if_false, if_true, quietStart_upd_tot]
  rfl

lemma recNoise_dir2 (t s : Int) (ht : 1000 ≤ t) (hs : 1000 ≤ s) :
    recNoise (quietStart "" (innerFormatMoney t) (innerFormatMoney s)) =
      quietStart "" (innerFormatMoney t) (innerFormatMoney s) := by
  have hT := innerParse_innerFormat t (by omega)
  have hS := innerParse_innerFormat s (by omega)
  simp only [recNoise, quietStart_pre, quietStart_tax, quietStart_tot, hT, hS,
    innerParseMoney_empty,
    show (t < 1000) = False from eq_false (by omega),
    show (s < 1000) = False from eq_false (by omega),
    show ((0 : Int) < 1000) = True from eq_true (by omega),
    if_false, if_true, quietStart_upd_pre]
  rfl

lemma recNoise_dir3 (p s : Int) (hp : 1000 ≤ p) (hs : 1000 ≤ s) :
    recNoise (quietStart (innerFormatMoney p) "" (innerFormatMoney s)) =
      quietStart (innerFormatMoney p) "" (innerFormatMoney s) := by
  have hP := innerParse_innerFormat p (by omega)
  have hS := innerParse_innerFormat s (by omega)
  simp only [recNoise, quietStart_pre, quietStart_tax, quietStart_tot, hP, hS,
    innerParseMoney_empty,
    show (p < 1000) = False from eq_false (by omega),
    show (s < 1000) = False from eq_false (by omega),
    show ((0 : Int) < 1000) = True from eq_true (by omega),
    if_false, if_true, quietStart_upd_tax]
  rfl

/-- Missing-total direction: with pre-tax and tax formatted amounts and a
blank total, the cascade (up to the final rate inference) yields the
formatted sum as total. -/
lemma trace_dir1 (p t : Int) (hp : 1000 ≤ p) (ht : 1000 ≤ t) :
    recTaxFromBuckets (recKhacFill (recReRun (recReverse (recTotalCalc (recNoise
      (quietStart (innerFormatMoney p) (innerFormatMoney t) "")))))) =
    quietStart (innerFormatMoney p) (innerFormatMoney t)
      (innerFormatMoney (p + t)) := by
  have hP := innerParse_innerFormat p (by omega)
  have hT := innerParse_innerFormat t (by omega)
  rw [recNoise_dir1 p t hp ht]
  have h2 : recTotalCalc (quietStart (innerFormatMoney p) (innerFormatMoney t) "") =
      quietStart (innerFormatMoney p) (innerFormatMoney t)
        (innerFormatMoney (p + t)) := by
    unfold recTotalCalc
    rw [if_pos (quietStart_tot _ _ _)]
    simp only [quietStart_pre, quietStart_tax, hP, hT, quietStart_upd_tot]
    rfl
  rw [h2]
  rw [recReverse_id _ (by rw [quietStart_pre]; exact innerFormatMoney_ne_empty p)]
  rw [recReRun_id_tot _ (by rw [quietStart_tot]; exact innerFormatMoney_ne_empty (p + t))]
  rw [recKhacFill_id _ (quietStart_khac _ _ _)]
  rw [recTaxFromBuckets_id _ (by rw [quietStart_tax]; exact innerFormatMoney_ne_empty t)]

/-- Missing-pre-tax direction: with total and tax known, the cascade derives
pre-tax = total − tax. -/
lemma trace_dir2 (t s : Int) (ht : 1000 ≤ t) (hs : 1000 ≤ s) :
    recTaxFromBuckets (recKhacFill (recReRun (recReverse (recTotalCalc (recNoise
      (quietStart "" (innerFormatMoney t) (innerFormatMoney s))))))) =
    quietStart (innerFormatMoney (s - t)) (innerFormatMoney t)
      (innerFormatMoney s) := by
  have hT := innerParse_innerFormat t (by omega)
  have hS := innerParse_innerFormat s (by omega)
  rw [recNoise_dir2 t s ht hs]
  rw [recTotalCalc_id _ (by rw [quietStart_tot]; exact innerFormatMoney_ne_empty s)]
  have h3 : recReverse (quietStart "" (innerFormatMoney t) (innerFormatMoney s)) =
      quietStart (innerFormatMoney (s - t)) (innerFormatMoney t)
        (innerFormatMoney s) := by
    unfold recReverse
    rw [if_pos ⟨by rw [quietStart_tot]; exact innerFormatMoney_ne_empty s,
      quietStart_pre _ _ _⟩]
    simp only [quietStart_pre, quietStart_tax, quietStart_tot, hT, hS,
      show (t = 0) = False from eq_false (by omega), if_false,
      quietStart_upd_pre]
    rfl
  rw [h3]
  rw [recReRun_id_tot _ (by rw [quietStart_tot]; exact innerFormatMoney_ne_empty s)]
  rw [recKhacFill_id _ (quietStart_khac _ _ _)]
  rw [recTaxFromBuckets_id _ (by rw [quietStart_tax]; exact innerFormatMoney_ne_empty t)]

/-- Missing-tax direction: with pre-tax and total known and tax blank, the
cascade never derives the tax. -/
lemma trace_dir3 (p s : Int) (hp : 1000 ≤ p) (hs : 1000 ≤ s) :
    recTaxFromBuckets (recKhacFill (recReRun (recReverse (recTotalCalc (recNoise
      (quietStart (innerFormatMoney p) "" (innerFormatMoney s))))))) =
    quietStart (innerFormatMoney p) "" (innerFormatMoney s) := by
  rw [recNoise_dir3 p s hp hs]
  rw [recTotalCalc_id _ (by rw [quietStart_tot]; exact innerFormatMoney_ne_empty s)]
  rw [recReverse_id _ (by rw [quietStart_pre]; exact innerFormatMoney_ne_empty p)]
  rw [recReRun_id_tax _ (quietStart_tax _ _ _)]
  rw [recKhacFill_id _ (quietStart_khac _ _ _)]
  rw [recTaxFromBuckets_blank _ (quietStart_t0 _ _ _) (quietStart_t5 _ _ _)
    (quietStart_t8 _ _ _) (quietStart_t10 _ _ _) (quietStart_khac _ _ _)]

lemma recKhacClean_t0 (d : InvoiceRecord) : (recKhacClean d).thue0 = d.thue0 := by
  simp only [recKhacClean]
  split_ifs <;> rfl

lemma recKhacClean_t5 (d : InvoiceRecord) : (recKhacClean d).thue5 = d.thue5 := by
  simp only [recKhacClean]
  split_ifs <;> rfl

lemma recKhacClean_t8 (d : InvoiceRecord) : (recKhacClean d).thue8 = d.thue8 := by
  simp only [recKhacClean]
  split_ifs <;> rfl

lemma recKhacClean_t10 (d : InvoiceRecord) : (recKhacClean d).thue10 = d.thue10 := by
  simp only [recKhacClean]
  split_ifs <;> rfl

@[simp] lemma recCleanAll_t0 (d : InvoiceRecord) : (recCleanAll d).thue0 = cleanStr d.thue0 := rfl
@[simp] lemma recCleanAll_t5 (d : InvoiceRecord) : (recCleanAll d).thue5 = cleanStr d.thue5 := rfl
@[simp] lemma recCleanAll_t8 (d : InvoiceRecord) : (recCleanAll d).thue8 = cleanStr d.thue8 := rfl
@[simp] lemma recCleanAll_t10 (d : InvoiceRecord) : (recCleanAll d).thue10 = cleanStr d.thue10 := rfl

@[simp] lemma recMoneyClean_t0 (d : InvoiceRecord) :
    (recMoneyClean d).thue0 = moneyCleanField d.thue0 := rfl
@[simp] lemma recMoneyClean_t5 (d : InvoiceRecord) :
    (recMoneyClean d).thue5 = moneyCleanField d.thue5 := rfl
@[simp] lemma recMoneyClean_t8 (d : InvoiceRecord) :
    (recMoneyClean d).thue8 = moneyCleanField d.thue8 := rfl
@[simp] lemma recMoneyClean_t10 (d : InvoiceRecord) :
    (recMoneyClean d).thue10 = moneyCleanField d.thue10 := rfl

lemma tail_t0 (s : InvoiceRecord) :
    (recMoneyClean (recKhacClean (recCleanAll s))).thue0 =
      moneyCleanField (cleanStr s.thue0) := by
  rw [recMoneyClean_t0, recKhacClean_t0, recCleanAll_t0]

lemma tail_t5 (s : InvoiceRecord) :
    (recMoneyClean (recKhacClean (recCleanAll s))).thue5 =
      moneyCleanField (cleanStr s.thue5) := by
  rw [recMoneyClean_t5, recKhacClean_t5, recCleanAll_t5]

lemma tail_t8 (s : InvoiceRecord) :
    (recMoneyClean (recKhacClean (recCleanAll s))).thue8 =
      moneyCleanField (cleanStr s.thue8) := by
  rw [recMoneyClean_t8, recKhacClean_t8, recCleanAll_t8]

lemma tail_t10 (s : InvoiceRecord) :
    (recMoneyClean (recKhacClean (recCleanAll s))).thue10 =
      moneyCleanField (cleanStr s.thue10) := by
  rw [recMoneyClean_t10, recKhacClean_t10, recCleanAll_t10]

/-! ### Claim C2 -/

/-- C2 counterexample: with pre-tax = 1,000,000 and total = 1,080,000 known
and consistent (1,000,000 + 80,000 = 1,080,000) and the tax blank, the
returned record still has a blank total tax — the missing-tax direction is
never derived by the cascade, refuting "in all three directions". -/
theorem claim_C2_reconciliation_counterexample :
    (reconcileMoney noSignals [] (quietStart "1.000.000" "" "1.080.000")).tienThue = "" ∧
    innerParseMoney "1.000.000" + 80000 = innerParseMoney "1.080.000" ∧
    innerFormatMoney 80000 = "80.000" := by
  refine ⟨by decide, by decide, by decide⟩

/-- C2 amended: the reconciliation identity holds in the missing-total
direction (total becomes pre-tax + tax; in particular 1,000,000 + 80,000 =
1,080,000) and in the missing-pre-tax direction (pre-tax becomes
total − tax), but a missing total tax is never derived from total −
pre-tax: it stays blank. -/
theorem claim_C2_reconciliation_amended (p t s : Int) (hp : 1000 ≤ p)
    (ht : 1000 ≤ t) (hs : 1000 ≤ s) (hts : t ≤ s) :
    (reconcileMoney noSignals []
        (quietStart (innerFormatMoney p) (innerFormatMoney t) "")).soTienSau =
      innerFormatMoney (p + t) ∧
    (reconcileMoney noSignals []
        (quietStart "" (innerFormatMoney t) (innerFormatMoney s))).soTienTruocThue =
      innerFormatMoney (s - t) ∧
    (reconcileMoney noSignals []
        (quietStart (innerFormatMoney p) "" (innerFormatMoney s))).tienThue = "" := by
  refine ⟨?_, ?_, ?_⟩
  · rw [reconcile_noSignals_nil, trace_dir1 p t hp ht]
    rw [recMoneyClean_tot, recKhacClean_tot, recCleanAll_tot, recRateInfer_tot,
      quietStart_tot, cleanStr_format, moneyCleanField_format _ (by omega)]
  · rw [reconcile_noSignals_nil, trace_dir2 t s ht hs]
    rw [recMoneyClean_pre, recKhacClean_pre, recCleanAll_pre, recRateInfer_pre,
      quietStart_pre, cleanStr_format, moneyCleanField_format _ (by omega)]
  · rw [reconcile_noSignals_nil, trace_dir3 p s hp hs]
    rw [recMoneyClean_tax, recKhacClean_tax, recCleanAll_tax, recRateInfer_tax,
      quietStart_tax, cleanStr_empty, moneyCleanField_empty]

theorem claim_C2_reconciliation_amended_witness :
    (1000 ≤ (1000000 : Int)) ∧ (1000 ≤ (80000 : Int)) ∧
    (1000 ≤ (1080000 : Int)) ∧ ((80000 : Int) ≤ 1080000) ∧
    ((reconcileMoney noSignals []
        (quietStart (innerFormatMoney 1000000) (innerFormatMoney 80000) "")).soTienSau =
      innerFormatMoney (1000000 + 80000) ∧
     (reconcileMoney noSignals []
        (quietStart "" (innerFormatMoney 80000) (innerFormatMoney 1080000))).soTienTruocThue =
      innerFormatMoney (1080000 - 80000) ∧
     (reconcileMoney noSignals []
        (quietStart (innerFormatMoney 1000000) "" (innerFormatMoney 1080000))).tienThue = "") :=
  ⟨by norm_num, by norm_num, by norm_num, by norm_num,
   claim_C2_reconciliation_amended 1000000 80000 1080000 (by norm_num)
     (by norm_num) (by norm_num) (by norm_num)⟩

/-! ### Claim C7 -/

/-- A line item whose detected 5% rate over a 5,000 amount aggregates an
estimated tax of 250. -/
def noiseItem : SvcItem :=
  { name := "Phí dịch vụ", qty := "1", unitPrice := "5,000", amount := "5.000"
    taxRate := some "5" }

/-- C7 counterexample: the record built from `noiseItem` ends with total tax
"250" and 5% bucket "250" — monetary fields holding a parsed value that is
positive and below 1000, because the noise floor runs before the item
aggregation and covers only the three summary fields. -/
theorem claim_C7_noise_floor_counterexample :
    (reconcileMoney noSignals [noiseItem] (quietStart "" "" "")).tienThue = "250" ∧
    (reconcileMoney noSignals [noiseItem] (quietStart "" "" "")).thue5 = "250" ∧
    (0 : Int) < innerParseMoney "250" ∧ innerParseMoney "250" < 1000 := by
  refine ⟨by decide, by decide, by decide, by decide⟩

/-- C7 amended: the sub-1000 noise floor is guaranteed only at the point of
the validation step and only for the three summary fields — right after it,
each of pre-tax, total tax and total is blank or parses to at least 1000;
per-rate buckets are not covered, and later item aggregation can reintroduce
positive values below 1000. -/
theorem claim_C7_noise_floor_amended (d : InvoiceRecord) :
    ((recNoise d).soTienTruocThue = "" ∨
      1000 ≤ innerParseMoney (recNoise d).soTienTruocThue) ∧
    ((recNoise d).tienThue = "" ∨ 1000 ≤ innerParseMoney (recNoise d).tienThue) ∧
    ((recNoise d).soTienSau = "" ∨ 1000 ≤ innerParseMoney (recNoise d).soTienSau) := by
  simp only [recNoise]
  split_ifs <;> refine ⟨?_, ?_, ?_⟩ <;> simp_all

/-! ### Claim C8 -/

/-- A line item with detected rate 0: the aggregation sets total tax to
`format_money(0) = "0"` while filling no bucket. -/
def zeroRateItem : SvcItem :=
  { name := "Hàng miễn thuế", qty := "1", unitPrice := "2,000", amount := "2.000"
    taxRate := some "0" }

/-- C8 counterexample: a record reaching the final pass with pre-tax
"1.000.000" and total tax "0" (a known, zero amount): round(0 / 1,000,000 ×
100) = 0 lands exactly on the recognised rate 0, yet no bucket is populated
— the code additionally requires the parsed tax to be positive. -/
theorem claim_C8_rate_inference_counterexample :
    (reconcileMoney noSignals [zeroRateItem] (quietStart "1.000.000" "" "")).tienThue = "0" ∧
    (reconcileMoney noSignals [zeroRateItem] (quietStart "1.000.000" "" "")).soTienTruocThue = "1.000.000" ∧
    pyRoundRat (innerParseMoney "0" * 100) (innerParseMoney "1.000.000") = 0 ∧
    (reconcileMoney noSignals [zeroRateItem] (quietStart "1.000.000" "" "")).thue0 = "" ∧
    (reconcileMoney noSignals [zeroRateItem] (quietStart "1.000.000" "" "")).thue5 = "" ∧
    (reconcileMoney noSignals [zeroRateItem] (quietStart "1.000.000" "" "")).thue8 = "" ∧
    (reconcileMoney noSignals [zeroRateItem] (quietStart "1.000.000" "" "")).thue10 = "" := by
  refine ⟨by decide, by decide, by decide, by decide, by decide, by decide, by decide⟩

/-- The per-rate bucket named by an integer rate. -/
def bucketInt (r : Int) (d : InvoiceRecord) : String :=
  if r = 0 then d.thue0
  else if r = 5 then d.thue5
  else if r = 8 then d.thue8
  else if r = 10 then d.thue10
  else ""

lemma bucketInt_0 (d : InvoiceRecord) : bucketInt 0 d = d.thue0 := by
  unfold bucketInt
  norm_num

lemma bucketInt_5 (d : InvoiceRecord) : bucketInt 5 d = d.thue5 := by
  unfold bucketInt
  norm_num

lemma bucketInt_8 (d : InvoiceRecord) : bucketInt 8 d = d.thue8 := by
  unfold bucketInt
  norm_num

lemma bucketInt_10 (d : InvoiceRecord) : bucketInt 10 d = d.thue10 := by
  unfold bucketInt
  norm_num

/-- C8 amended: when pre-tax and total tax are known with positive parsed
values, no bucket is populated yet, and round(tax / pre-tax × 100) lands
exactly on a recognised rate, the final pass populates exactly that one
bucket (with the tax string) and no other; in particular pre-tax =
1,000,000 with tax = 100,000 populates only the 10% bucket. -/
theorem claim_C8_rate_inference_amended (p t r : Int) (hp : 1000 ≤ p)
    (ht : 1000 ≤ t) (hr : pyRoundRat (t * 100) p = r)
    (hrec : r = 0 ∨ r = 5 ∨ r = 8 ∨ r = 10) :
    bucketInt r (reconcileMoney noSignals []
      (quietStart (innerFormatMoney p) (innerFormatMoney t) "")) =
      innerFormatMoney t ∧
    ∀ q : Int, (q = 0 ∨ q = 5 ∨ q = 8 ∨ q = 10) → q ≠ r →
      bucketInt q (reconcileMoney noSignals []
        (quietStart (innerFormatMoney p) (innerFormatMoney t) "")) = "" := by
  have hP := innerParse_innerFormat p (by omega)
  have hT := innerParse_innerFormat t (by omega)
  have hclean : ∀ x : String, x = innerFormatMoney t →
      moneyCleanField (cleanStr x) = innerFormatMoney t := by
    rintro x rfl
    rw [cleanStr_format, moneyCleanField_format _ (by omega)]
  have hblank : moneyCleanField (cleanStr "") = "" := by
    rw [cleanStr_empty, moneyCleanField_empty]
  rw [reconcile_noSignals_nil, trace_dir1 p t hp ht]
  have hri : recRateInfer (quietStart (innerFormatMoney p) (innerFormatMoney t)
      (innerFormatMoney (p + t))) =
      (if r = 0 then
        { quietStart (innerFormatMoney p) (innerFormatMoney t)
            (innerFormatMoney (p + t)) with thue0 := innerFormatMoney t }
      else if r = 5 then
        { quietStart (innerFormatMoney p) (innerFormatMoney t)
            (innerFormatMoney (p + t)) with thue5 := innerFormatMoney t }
      else if r = 8 then
        { quietStart (innerFormatMoney p) (innerFormatMoney t)
            (innerFormatMoney (p + t)) with thue8 := innerFormatMoney t }
      else if r = 10 then
        { quietStart (innerFormatMoney p) (innerFormatMoney t)
            (innerFormatMoney (p + t)) with thue10 := innerFormatMoney t }
      else quietStart (innerFormatMoney p) (innerFormatMoney t)
        (innerFormatMoney (p + t))) := by
    unfold recRateInfer
    rw [if_pos ⟨by rw [quietStart_tax]; exact innerFormatMoney_ne_empty t,
      by rw [quietStart_pre]; exact innerFormatMoney_ne_empty p,
      quietStart_t0 _ _ _, quietStart_t5 _ _ _, quietStart_t8 _ _ _,
      quietStart_t10 _ _ _⟩]
    simp only [quietStart_pre, quietStart_tax, hP, hT]
    rw [if_pos ⟨by omega, by omega⟩, hr]
  rw [hri]
  rcases hrec with rfl | rfl | rfl | rfl
  · rw [if_pos rfl]
    constructor
    · rw [bucketInt_0, tail_t0]
      show moneyCleanField (cleanStr (innerFormatMoney t)) = innerFormatMoney t
      rw [cleanStr_format, moneyCleanField_format _ (by omega)]
    · intro q hq hne
      rcases hq with rfl | rfl | rfl | rfl
      · exact absurd rfl hne
      · rw [bucketInt_5, tail_t5]
        exact hblank
      · rw [bucketInt_8, tail_t8]
        exact hblank
      · rw [bucketInt_10, tail_t10]
        exact hblank
  · rw [if_neg (by norm_num), if_pos rfl]
    constructor
    · rw [bucketInt_5, tail_t5]
      show moneyCleanField (cleanStr (innerFormatMoney t)) = innerFormatMoney t
      rw [cleanStr_format, moneyCleanField_format _ (by omega)]
    · intro q hq hne
      rcases hq with rfl | rfl | rfl | rfl
      · rw [bucketInt_0, tail_t0]
        exact hblank
      · exact absurd rfl hne
      · rw [bucketInt_8, tail_t8]
        exact hblank
      · rw [bucketInt_10, tail_t10]
        exact hblank
  · rw [if_neg (by norm_num), if_neg (by norm_num), if_pos rfl]
    constructor
    · rw [bucketInt_8, tail_t8]
      show moneyCleanField (cleanStr (innerFormatMoney t)) = innerFormatMoney t
      rw [cleanStr_format, moneyCleanField_format _ (by omega)]
    · intro q hq hne
      rcases hq with rfl | rfl | rfl | rfl
      · rw [bucketInt_0, tail_t0]
        exact hblank
      · rw [bucketInt_5, tail_t5]
        exact hblank
      · exact absurd rfl hne
      · rw [bucketInt_10, tail_t10]
        exact hblank
  · rw [if_neg (by norm_num), if_neg (by norm_num), if_neg (by norm_num),
      if_pos rfl]
    constructor
    · rw [bucketInt_10, tail_t10]
      show moneyCleanField (cleanStr (innerFormatMoney t)) = innerFormatMoney t
      rw [cleanStr_format, moneyCleanField_format _ (by omega)]
    · intro q hq hne
      rcases hq with rfl | rfl | rfl | rfl
      · rw [bucketInt_0, tail_t0]
        exact hblank
      · rw [bucketInt_5, tail_t5]
        exact hblank
      · rw [bucketInt_8, tail_t8]
        exact hblank
      · exact absurd rfl hne

theorem claim_C8_rate_inference_amended_witness :
    (1000 ≤ (1000000 : Int)) ∧ (1000 ≤ (100000 : Int)) ∧
    pyRoundRat (100000 * 100) 1000000 = 10 ∧
    ((10 : Int) = 0 ∨ (10 : Int) = 5 ∨ (10 : Int) = 8 ∨ (10 : Int) = 10) ∧
    (bucketInt 10 (reconcileMoney noSignals []
        (quietStart (innerFormatMoney 1000000) (innerFormatMoney 100000) "")) =
      innerFormatMoney 100000 ∧
     ∀ q : Int, (q = 0 ∨ q = 5 ∨ q = 8 ∨ q = 10) → q ≠ 10 →
      bucketInt q (reconcileMoney noSignals []
        (quietStart (innerFormatMoney 1000000) (innerFormatMoney 100000) "")) = "") :=
  ⟨by norm_num, by norm_num, by decide, by norm_num,
   claim_C8_rate_inference_amended 1000000 100000 10 (by norm_num) (by norm_num)
     (by decide) (by norm_num)⟩

/-! ### Line-item extractor (`extract_services_from_text`, lines 652-1073)

Python string/regex semantics needed by the transcription. `str.upper()` /
`str.lower()` are modelled for ASCII plus the Vietnamese alphabet (the only
scripts this code base handles); `\w` and `isupper`/`islower` likewise. -/

/-- Vietnamese lowercase/uppercase letter pairs. -/
def vietPairs : List (Char × Char) :=
  [('à','À'),('á','Á'),('ạ','Ạ'),('ả','Ả'),('ã','Ã'),('â','Â'),('ầ','Ầ'),
   ('ấ','Ấ'),('ậ','Ậ'),('ẩ','Ẩ'),('ẫ','Ẫ'),('ă','Ă'),('ằ','Ằ'),('ắ','Ắ'),
   ('ặ','Ặ'),('ẳ','Ẳ'),('ẵ','Ẵ'),('è','È'),('é','É'),('ẹ','Ẹ'),('ẻ','Ẻ'),
   ('ẽ','Ẽ'),('ê','Ê'),('ề','Ề'),('ế','Ế'),('ệ','Ệ'),('ể','Ể'),('ễ','Ễ'),
   ('ì','Ì'),('í','Í'),('ị','Ị'),('ỉ','Ỉ'),('ĩ','Ĩ'),('ò','Ò'),('ó','Ó'),
   ('ọ','Ọ'),('ỏ','Ỏ'),('õ','Õ'),('ô','Ô'),('ồ','Ồ'),('ố','Ố'),('ộ','Ộ'),
   ('ổ','Ổ'),('ỗ','Ỗ'),('ơ','Ơ'),('ờ','Ờ'),('ớ','Ớ'),('ợ','Ợ'),('ở','Ở'),
   ('ỡ','Ỡ'),('ù','Ù'),('ú','Ú'),('ụ','Ụ'),('ủ','Ủ'),('ũ','Ũ'),('ư','Ư'),
   ('ừ','Ừ'),('ứ','Ứ'),('ự','Ự'),('ử','Ử'),('ữ','Ữ'),('ỳ','Ỳ'),('ý','Ý'),
   ('ỵ','Ỵ'),('ỷ','Ỷ'),('ỹ','Ỹ'),('đ','Đ')]

def isAsciiUpper (c : Char) : Bool := 'A' ≤ c && c ≤ 'Z'
def isAsciiLower (c : Char) : Bool := 'a' ≤ c && c ≤ 'z'
def isAsciiLetter (c : Char) : Bool := isAsciiUpper c || isAsciiLower c

/-- Python `str.upper()`, one character (ASCII + Vietnamese). -/
def pyUpperChar (c : Char) : Char :=
  if isAsciiLower c then c.toUpper
  else match vietPairs.find? (fun p => p.1 = c) with
    | some p => p.2
    | none => c

/-- Python `str.lower()`, one character (ASCII + Vietnamese). -/
def pyLowerChar (c : Char) : Char :=
  if isAsciiUpper c then c.toLower
  else match vietPairs.find? (fun p => p.2 = c) with
    | some p => p.1
    | none => c

def pyUpperL (l : List Char) : List Char := l.map pyUpperChar
def pyLowerL (l : List Char) : List Char := l.map pyLowerChar

/-- Python `str.isupper()` for a single character (ASCII + Vietnamese). -/
def isUpperPy (c : Char) : Bool :=
  isAsciiUpper c || (vietPairs.any (fun p => p.2 = c))

/-- Python `str.islower()` for a single character (ASCII + Vietnamese). -/
def isLowerPy (c : Char) : Bool :=
  isAsciiLower c || (vietPairs.any (fun p => p.1 = c))

/-- Python `\w` (ASCII alphanumerics, underscore, Vietnamese letters). -/
def isWordPy (c : Char) : Bool :=
  isDigitCh c || isAsciiLetter c || c = '_' ||
    vietPairs.any (fun p => p.1 = c || p.2 = c)

/-- `COMMON_UNITS` (lines 153-159), as the list literal of the source set. -/
def COMMON_UNITS : List (List Char) :=
  ["CÁI", "CHIẾC", "BỘ", "GÓI", "HỘP", "THÙNG", "BAO", "CHAI", "LON", "LÍT",
   "LIT", "KG", "GRAM", "GM", "MÉT", "M", "M2", "M3", "CUỘN", "TẤM", "THANH",
   "VIÊN", "VỈ", "TỜ", "QUYỂN", "CUỐN", "RAM", "CẶP", "ĐÔI", "DĨA", "ĐĨA",
   "PHẦN", "THỐ", "TÔ", "CHÉN", "LY", "CỐC", "SUẤT", "KIM", "CHẬU", "CÂY",
   "GIỜ", "NGÀY", "THÁNG", "NĂM", "LẦN", "CHUYẾN", "LƯỢT", "PHÚT", "KW",
   "KWH", "SỐ", "MÓN", "KỆ", "BỊCH", "NỒI", "CON", "PCS", "NGƯỜI"].map
    String.toList

/-- `JUNK_TEXT_KEYWORDS` (lines 162-169). -/
def JUNK_TEXT_KEYWORDS : List (List Char) :=
  ["stt", "tên hàng", "đơn vị tính", "số lượng", "thành tiền", "người mua",
   "ký bởi", "trang", "thuế suất", "cộng tiền", "tổng cộng", "bằng chữ",
   "tiền thuế", "serial", "ký hiệu", "mẫu số", "vnd", "chuyển khoản",
   "vat invoice", "đơn vị bán", "mã tra cứu", "vat) rate)", "vat rate",
   "gtgt", "rate)", "amount)", "rate%)", "tên h", "đơ n v", "s ố l",
   "vị tính", "sau thuế", "chiết khấu", "a b c"].map String.toList

/-- `SURCHARGE_KEYWORDS` (line 171). -/
def SURCHARGE_KEYWORDS : List (List Char) :=
  ["phụ thu", "phí dịch vụ", "phí phục vụ", "service charge",
   "surcharge"].map String.toList

/-- Tail of `re.match(r'^([A-Z]\s+)+[A-Z]$', text)` after a capital and a
whitespace run have been consumed. -/
def capSpacedAux : Nat → List Char → Bool
  | 0, _ => false
  | _, [c] => isAsciiUpper c
  | fuel+1, c :: rest =>
    isAsciiUpper c &&
      (let ws := rest.takeWhile Char.isWhitespace
       decide (ws ≠ []) && capSpacedAux fuel (rest.drop ws.length))
  | _, [] => false

/-- `re.match(r'^([A-Z]\s+)+[A-Z]$', text)`: spaced-out capital headers. -/
def capSpacedMatch (l : List Char) : Bool :=
  match l with
  | c :: rest =>
    isAsciiUpper c &&
      (let ws := rest.takeWhile Char.isWhitespace
       decide (ws ≠ []) && capSpacedAux l.length (rest.drop ws.length))
  | [] => false

/-- `is_junk_text` (lines 174-187). -/
def is_junk_text (l : List Char) : Bool :=
  if l.length < 2 then true
  else
    let t := pyLowerL l
    if capSpacedMatch l then true
    else if l.all (fun c => isDigitCh c || c.isWhitespace || c = '(' ||
        c = ')' || c = '=' || c = 'x' || c = '+') then true
    else if JUNK_TEXT_KEYWORDS.any (fun w => hasSub t w) then true
    else if 50 < t.length && 4 < (t.filter (fun c => c = '(' || c = ')')).length
      then true
    else false

/-- Greedy repetitions of `(?:[.,]\d+)*` after the leading digit run. -/
def grabNumExt : Nat → List Char → List Char
  | 0, _ => []
  | fuel+1, s :: rest =>
    if s = '.' || s = ',' then
      let d2 := rest.takeWhile isDigitCh
      if d2 = [] then []
      else s :: (d2 ++ grabNumExt fuel (rest.drop d2.length))
    else []
  | _+1, [] => []

/-- The token matched by `\d+(?:[.,]\d+)*` at a digit position. -/
def grabNum (l : List Char) : List Char :=
  let d := l.takeWhile isDigitCh
  d ++ grabNumExt l.length (l.drop d.length)

/-- `re.finditer(r'(\d+(?:[.,]\d+)*)', line)` with start positions. -/
def numToksAux : Nat → Nat → List Char → List (Nat × List Char)
  | 0, _, _ => []
  | fuel+1, pos, l =>
    match l with
    | [] => []
    | c :: cs =>
      if isDigitCh c then
        let tok := grabNum (c :: cs)
        (pos, tok) :: numToksAux fuel (pos + tok.length) ((c :: cs).drop tok.length)
      else numToksAux fuel (pos + 1) cs

def numToks (l : List Char) : List (Nat × List Char) := numToksAux l.length 0 l

/-- Separator class of the sequence-number regex `[._\-\s|]`. -/
def isSttSep (c : Char) : Bool :=
  c = '.' || c = '_' || c = '-' || c.isWhitespace || c = '|'

/-- `re.match(r'^(\d{1,3})[._\-\s|]+', line)`: the digit prefix (1-3 digits,
longer digit runs cannot match) followed by at least one separator; returns
the captured digits and the length of the whole match. -/
def sttMatch (l : List Char) : Option (List Char × Nat) :=
  let d := l.takeWhile isDigitCh
  if d = [] || 3 < d.length then none
  else
    let seps := (l.drop d.length).takeWhile isSttSep
    if seps = [] then none else some (d, d.length + seps.length)

/-- `re.search(r'\b(0|5|8|10)\s*%', line)`: scan with the previous character
for the word boundary; the alternation is tried in order `0|5|8|10`. -/
def rateScan : Option Char → List Char → Option String
  | _, [] => none
  | prev, c :: cs =>
    let boundary := match prev with
      | none => true
      | some p => !(isWordPy p)
    let tryPct : List Char → Bool := fun rest =>
      match rest.drop (rest.takeWhile Char.isWhitespace).length with
      | '%' :: _ => true
      | _ => false
    if boundary && (c = '0' || c = '5' || c = '8') && tryPct cs then
      some ⟨[c]⟩
    else if boundary && c = '1' then
      match cs with
      | '0' :: cs2 => if tryPct cs2 then some "10" else rateScan (some c) cs
      | _ => rateScan (some c) cs
    else rateScan (some c) cs

def rateMatch (l : List Char) : Option String := rateScan none l

/-- `re.match(r'^[\d\s.,|()x=+]+$', line)`. -/
def hdr1Match (l : List Char) : Bool :=
  decide (l ≠ []) && l.all (fun c => isDigitCh c || c.isWhitespace || c = '.' ||
    c = ',' || c = '|' || c = '(' || c = ')' || c = 'x' || c = '=' || c = '+')

/-- Tail search of `^[A-Z\s]+[\d\s=x]+$`: after at least one `[A-Z\s]`
character, either the rest is a non-empty `[\d\s=x]` run or another
`[A-Z\s]` character is consumed. -/
def hdr2Aux : List Char → Bool
  | [] => false
  | c :: cs =>
    ((c :: cs).all (fun x => isDigitCh x || x.isWhitespace || x = '=' || x = 'x')) ||
    ((isAsciiUpper c || c.isWhitespace) && hdr2Aux cs)

/-- `re.match(r'^[A-Z\s]+[\d\s=x]+$', line)`. -/
def hdr2Match (l : List Char) : Bool :=
  match l with
  | c :: cs => (isAsciiUpper c || c.isWhitespace) && hdr2Aux cs
  | [] => false

/-- Attempt `\d{1,2} sep \d{1,2} sep \d{2,4}` at the head of the list
(`sep` is a slash or hyphen, optionally surrounded by whitespace when `spaced` is set,
matching the two date patterns of the source).  A longer digit run cannot
match (`\d{1,2}` backtracks onto digits).  Returns the match length. -/
def dateTryAt (spaced : Bool) (l : List Char) : Option Nat :=
  let ws := fun (m : List Char) => if spaced then (m.takeWhile Char.isWhitespace).length else 0
  let d1 := l.takeWhile isDigitCh
  if d1 = [] || 2 < d1.length then none
  else
    let r1 := l.drop d1.length
    let w1 := ws r1
    match r1.drop w1 with
    | s1 :: r2 =>
      if s1 = '/' || s1 = '-' then
        let w2 := ws r2
        let r2' := r2.drop w2
        let d2 := r2'.takeWhile isDigitCh
        if d2 = [] || 2 < d2.length then none
        else
          let r3 := r2'.drop d2.length
          let w3 := ws r3
          match r3.drop w3 with
          | s2 :: r4 =>
            if s2 = '/' || s2 = '-' then
              let w4 := ws r4
              let r4' := r4.drop w4
              let dy := r4'.takeWhile isDigitCh
              if dy.length < 2 then none
              else
                let taken := min dy.length 4
                some (d1.length + w1 + 1 + w2 + d2.length + w3 + 1 + w4 + taken)
            else none
          | [] => none
      else none
    | [] => none

/-- `re.sub` of the date pattern with `''`: remove every leftmost,
non-overlapping match. -/
def dateRemove (spaced : Bool) : Nat → List Char → List Char
  | 0, l => l
  | fuel+1, l =>
    match l with
    | [] => []
    | c :: cs =>
      match dateTryAt spaced (c :: cs) with
      | some n => dateRemove spaced fuel ((c :: cs).drop n)
      | none => c :: dateRemove spaced fuel cs

def dateSub (spaced : Bool) (l : List Char) : List Char :=
  dateRemove spaced l.length l

/-- Attempt `\d{1,3}(?:[.,]\d{3})+(?:[.,]\d{2})?` at the head: the whole
digit run must be 1-3 long, then at least one separator+3-digits group, then
an optional separator+2-digits tail. -/
def priceNumAt (l : List Char) : Bool :=
  let d1 := l.takeWhile isDigitCh
  if d1 = [] || 3 < d1.length then false
  else
    let rec groups : Nat → List Char → Bool → Bool := fun fuel m found =>
      match fuel, m with
      | fuel+1, s :: rest =>
        if (s = '.' || s = ',') && 3 ≤ (rest.takeWhile isDigitCh).length then
          groups fuel (rest.drop 3) true
        else found
      | _, _ => found
    groups l.length (l.drop d1.length) false

/-- Does `re.findall(r'\d{1,3}(?:[.,]\d{3})+(?:[.,]\d{2})?', l)` find
anything?  (Only emptiness is consumed by the source.) -/
def priceNumExists (l : List Char) : Bool :=
  (List.range l.length).any (fun i => priceNumAt (l.drop i))

/-- `re.findall(r'\b\d{4,}\b', l)`: count of standalone digit runs of
length at least 4 (word boundary on both sides). -/
def simpleNumCountAux : Nat → Option Char → List Char → Nat
  | 0, _, _ => 0
  | fuel+1, prev, l =>
    match l with
    | [] => 0
    | c :: cs =>
      let boundary := match prev with
        | none => true
        | some p => !(isWordPy p)
      if boundary && isDigitCh c then
        let run := (c :: cs).takeWhile isDigitCh
        let after := (c :: cs).drop run.length
        let rightB := match after with
          | [] => true
          | a :: _ => !(isWordPy a)
        (if 4 ≤ run.length && rightB then 1 else 0) +
          simpleNumCountAux fuel (run.getLast?) after
      else simpleNumCountAux fuel (some c) cs

def simpleNumCount (l : List Char) : Nat := simpleNumCountAux l.length none l

/-- `re.sub(r'^\d+\s+', '', s)`. -/
def subNumWsPrefix (l : List Char) : List Char :=
  let d := l.takeWhile isDigitCh
  if d = [] then l
  else
    let ws := (l.drop d.length).takeWhile Char.isWhitespace
    if ws = [] then l else (l.drop d.length).drop ws.length

/-- `re.sub(r'^(?:[A-C]\s)+[\d\s=x]+', '', s)`: maximal chain of
letter+whitespace pairs (shrinking it cannot help, the pair letter is not in
the second class), then a non-empty `[\d\s=x]` run. -/
def acPairs : Nat → List Char → Nat
  | 0, _ => 0
  | fuel+1, a :: b :: rest =>
    if ('A' ≤ a && a ≤ 'C') && b.isWhitespace then 2 + acPairs fuel rest
    else 0
  | _+1, _ => 0

def subACPrefix (l : List Char) : List Char :=
  let k := acPairs l.length l
  if k = 0 then l
  else
    let rest := l.drop k
    let run := rest.takeWhile (fun c => isDigitCh c || c.isWhitespace || c = '=' || c = 'x')
    if run = [] then l else rest.drop run.length

/-- `re.sub(r'^[\d\s=x+]+(\s|$)', '', s)`: the class run is maximal; the
match either spans the whole string, or ends with the last whitespace
character inside the run (greedy backtracking over a class that contains
`\s`). -/
def subNumEqPrefix (l : List Char) : List Char :=
  let run := l.takeWhile (fun c => isDigitCh c || c.isWhitespace || c = '=' ||
    c = 'x' || c = '+')
  if run = [] then l
  else if run.length = l.length then []
  else
    -- largest p in [1, run.length-1] with l[p] whitespace: equivalently,
    -- drop everything up to and including the last whitespace of the run
    -- that is not in first position... computed from the run's tail
    let wsIdx := (List.range run.length).filter
      (fun p => 1 ≤ p ∧ (l.getD p ' ').isWhitespace ∧ p < run.length)
    match wsIdx.getLast? with
    | some p => l.drop (p + 1)
    | none => l

/-- `re.search(r'\s+[\-\+]\s*[\d\s=x\+\-]+$', s)` used as a `$`-anchored
`re.sub`: the leftmost suffix consisting of a whitespace run, a sign and a
non-empty `[\d\s=x+\-]` tail (which may begin with whitespace, absorbed by
`\s*`). -/
def trailJunkAt (l : List Char) : Bool :=
  let ws := l.takeWhile Char.isWhitespace
  if ws = [] then false
  else
    match l.drop ws.length with
    | s :: rest =>
      (s = '-' || s = '+') && decide (rest ≠ []) &&
        rest.all (fun c => isDigitCh c || c.isWhitespace || c = '=' || c = 'x' ||
          c = '+' || c = '-')
    | [] => false

def subTrailJunk (l : List Char) : List Char :=
  match (List.range l.length).filter (fun i => trailJunkAt (l.drop i)) with
  | [] => l
  | i :: _ => l.take i

/-- `re.search(r'(\S+)\s+(\d+[\s.,\d]*)$', s)`: leftmost start of a
non-space run followed by whitespace and a digit-led `[\s.,\d]` tail
reaching the end.  Returns (group 1, start index of group 2). -/
def trailNumAt (l : List Char) (i : Nat) : Option (List Char × Nat) :=
  let suf := l.drop i
  match suf with
  | [] => none
  | c :: _ =>
    if c.isWhitespace then none
    else
      let run := suf.takeWhile (fun x => !(x.isWhitespace))
      let ws := (suf.drop run.length).takeWhile Char.isWhitespace
      if ws = [] then none
      else
        let tail := (suf.drop run.length).drop ws.length
        match tail with
        | d :: _ =>
          if isDigitCh d ∧ tail.all (fun x => isDigitCh x || x.isWhitespace ||
              x = '.' || x = ',') then
            some (run, i + run.length + ws.length)
          else none
        | [] => none

def trailNumMatch (l : List Char) : Option (List Char × Nat) :=
  match (List.range l.length).filterMap (fun i => trailNumAt l i) with
  | [] => none
  | m :: _ => some m

/-- Python `float(s)` for the decimal forms occurring here (optional sign,
`digits`, `digits.`, `digits.digits`, `.digits`); exact rational value, the
binary-float rounding is not modelled. -/
def pyFloatOpt (l : List Char) : Option ℚ :=
  let t := pyStrip l
  let signNeg := match t with
    | '-' :: _ => true
    | _ => false
  let t2 := match t with
    | '-' :: r => r
    | '+' :: r => r
    | _ => t
  let ip := t2.takeWhile isDigitCh
  let rest := t2.drop ip.length
  let mk := fun (q : ℚ) => some (if signNeg then -q else q)
  match rest with
  | [] => if ip = [] then none else mk (digitsFold ip)
  | '.' :: fr =>
    let fp := fr.takeWhile isDigitCh
    if fr.drop fp.length ≠ [] then none
    else if ip = [] ∧ fp = [] then none
    else mk ((digitsFold ip : ℚ) + (digitsFold fp : ℚ) / ((10 : ℚ) ^ fp.length))
  | _ => none

/-- `parse_vietnamese_number` (lines 224-231): drop dots, commas become
decimal points, `float`, `0` on failure. -/
def parse_vietnamese_number (l : List Char) : ℚ :=
  ((pyFloatOpt ((l.filter (fun c => c ≠ '.')).map
    (fun c => if c = ',' then '.' else c))).getD 0)

/-- `format_price_value` (lines 123-151): strip, resolve separators like the
money parser, group with commas; on failure return the stripped value. -/
def format_price_value (s : String) : String :=
  if s = "" then s
  else
    let v := pyStrip s.toList
    match pyIntOpt (stripSeps (sepResolve v)) with
    | some n => intComma n
    | none => ⟨v⟩

/-- Python `str.rstrip()`. -/
def pyRstrip (l : List Char) : List Char :=
  (l.reverse.dropWhile Char.isWhitespace).reverse

/-- `last[:-len(unit)].rstrip('（(')`: drop trailing full-width/ASCII open
parentheses. -/
def rstripParens (l : List Char) : List Char :=
  (l.reverse.dropWhile (fun c => c = '（' || c = '(')).reverse

/-- Backward scan for the last unit token followed by numbers
(lines 700-710). -/
def findUnitIdx (tokens : List (List Char)) : Option Nat :=
  (List.range tokens.length).reverse.find? (fun i =>
    let tok := pyUpperL (tokens.getD i [])
    decide (tok ∈ COMMON_UNITS) && decide (tok ≠ ("THANH" : String).toList) &&
      (joinSpace (tokens.drop (i + 1))).any isDigitCh)

/-- A number that "looks like a price" (lines 719-723): has a separator or
at least four digits. -/
def isPriceTok (tok : List Char) : Bool :=
  decide ('.' ∈ tok) || decide (',' ∈ tok) ||
    4 ≤ (tok.filter (fun c => !(c = '.' || c = ','))).length

/-- One step of the previous-line merge loop (lines 816-868): `none` means
`break`; otherwise the updated `prev_parts`. -/
def prevStep (lines : List (List Char)) (lineIdx offset : Nat)
    (parts : List (List Char)) : Option (List (List Char)) :=
  if lineIdx < offset then none
  else
    let prevLine0 := pyStrip (lines.getD (lineIdx - offset) [])
    if prevLine0 = [] ∨ prevLine0.length < 2 then none
    else
      let checkRest : List Char → Option (List (List Char)) := fun pl =>
        if is_junk_text pl then none
        else
          let temp := dateSub false pl
          if priceNumExists temp ∨ 1 < simpleNumCount temp then none
          else if (["cộng tiền", "tổng cộng", "thuế", "thành tiền"].map
              String.toList).any (fun k => hasSub (pyLowerL pl) k) then none
          else if (pl.getLast? = some ')' ∨ pl.getLast? = some '）') ∧
              pl.any isAsciiLetter ∧ ¬ ('(' ∈ pl) ∧ ¬ ('（' ∈ pl) then none
          else if (parts ≠ [] ∧
              (let lastCollected := parts.headD []
               isUpperPy (lastCollected.headD ' ') ∧
                 lastCollected.headD ' ' ≠ '(' ∧
                 pl.headD ' ' = '(' ∧ pl.any isAsciiLetter)) then none
          else some (pl :: parts)
      match sttMatch prevLine0 with
      | some g =>
        let rest := pyStrip (prevLine0.drop g.2)
        if rest.any isDigitCh then none else checkRest rest
      | none => checkRest prevLine0

/-- The previous-line merge (up to two lines back). -/
def collectPrev (lines : List (List Char)) (lineIdx : Nat) : List (List Char) :=
  match prevStep lines lineIdx 1 [] with
  | none => []
  | some p1 =>
    match prevStep lines lineIdx 2 p1 with
    | none => p1
    | some p2 => p2

/-- The Vietnamese-diacritic test of the next-line stop condition
(line 920), with `re.IGNORECASE`. -/
def hasVietDiacritic (l : List Char) : Bool :=
  l.any (fun c => vietPairs.any (fun p => p.1 = pyLowerChar c))

/-- One step of the next-line merge loop (lines 898-925): `none` = `break`. -/
def nextStep (lines : List (List Char)) (lineIdx : Nat)
    (hasUnclosed : Bool) (offset : Nat) : Option (List Char) :=
  if lines.length ≤ lineIdx + offset then none
  else
    let nl := pyStrip (lines.getD (lineIdx + offset) [])
    if nl = [] ∨ nl.length < 2 then none
    else if (sttMatch nl).isSome then none
    else if is_junk_text nl then none
    else
      let tempNext := dateSub true nl
      if 1 < (numToks tempNext).length then none
      else if (["cộng tiền", "tổng cộng", "thuế", "thành tiền"].map
          String.toList).any (fun k => hasSub (pyLowerL nl) k) then none
      else if isUpperPy (nl.headD ' ') ∧ nl.headD ' ' ≠ '(' ∧
          ¬ (hasUnclosed ∧ (')' ∈ nl ∨ '）' ∈ nl)) ∧ hasVietDiacritic nl then none
      else some nl

/-- The next-line merge (up to three lines ahead). -/
def collectNext (lines : List (List Char)) (lineIdx : Nat)
    (hasUnclosed : Bool) : List (List Char) :=
  match nextStep lines lineIdx hasUnclosed 1 with
  | none => []
  | some a =>
    match nextStep lines lineIdx hasUnclosed 2 with
    | none => [a]
    | some b =>
      match nextStep lines lineIdx hasUnclosed 3 with
      | none => [a, b]
      | some c => [a, b, c]

/-- Junk prefix removal (lines 934-942): for each prefix, first try
`prefix + " "`, then the bare prefix, each followed by a strip. -/
def stripJunkPrefixes (np : List Char) : List Char :=
  (["GTGT", "VAT) rate)", "VAT rate", "Rate)", "A B C", "khấu", "KHẤU",
    "Phần）", "Phần)", "PHẦN）", "PHẦN)", "ĐVT:", "ĐVT"].map String.toList).foldl
    (fun acc p =>
      let acc := if startsWithL (p ++ [' ']) acc then pyStrip (acc.drop p.length)
        else acc
      if startsWithL p acc then pyStrip (acc.drop p.length) else acc) np

/-- `while tokens and tokens[-1].upper() in COMMON_UNITS` (lines 770-771,
988-989). -/
def dropTrailUnits (tokens : List (List Char)) : List (List Char) :=
  (tokens.reverse.dropWhile (fun t => decide (pyUpperL t ∈ COMMON_UNITS))).reverse

/-- `while tokens and tokens[0].upper() in COMMON_UNITS and tokens[0].upper()
!= "THANH"` (lines 774-775, 991-992). -/
def dropLeadUnits (tokens : List (List Char)) : List (List Char) :=
  tokens.dropWhile (fun t => decide (pyUpperL t ∈ COMMON_UNITS) &&
    decide (pyUpperL t ≠ ("THANH" : String).toList))

/-- The in-token cleanups of lines 777-793: leading bracket removal on the
first token and long-unit suffix removal on the last token (iterating the
unit vocabulary in the textual order of the source's set literal — Python's
set iteration order is unspecified; the results agree whenever at most one
unit matches). -/
def bracketFix (tokens : List (List Char)) : List (List Char) :=
  match tokens with
  | [] => []
  | first :: rest =>
    let tokens :=
      if first.headD ' ' = '）' ∨ first.headD ' ' = ')' then
        pyStrip (first.drop 1) :: rest
      else first :: rest
    let last := tokens.getLastD []
    match COMMON_UNITS.find? (fun u => 3 ≤ u.length &&
        decide ((pyUpperL last).reverse.take u.length = u.reverse) &&
        u.length < last.length) with
    | some u =>
      tokens.take (tokens.length - 1) ++
        [rstripParens (last.take (last.length - u.length))]
    | none => tokens

/-- Quantity / unit price / amount selection (lines 987-1046): the standard,
discount-column and smart-selection branches, with the `try`/`except`
fallback of the five-number case (Python `float` failures modelled by
`pyFloatOpt` returning `none`). -/
def pickNums (nums : List (List Char)) :
    Option (List Char × List Char × List Char) :=
  if 5 ≤ nums.length then
    let discountVal :=
      let dv := (nums.getD 2 []).filter keepCh
      ((dv.dropWhile (fun c => c = '0')).reverse.dropWhile
        (fun c => c = '0')).reverse
    let hasDiscount := discountVal = [] ∨ discountVal = ['0']
    let qty := nums.getD 0 []
    let up := nums.getD 1 []
    let cand2 := nums.getD 2 []
    let cand3 := nums.getD 3 []
    let fallbackAmt := if hasDiscount ∧ 4 ≤ nums.length then nums.getD 3 []
      else nums.getD 2 []
    let qv := if ',' ∈ qty then
        pyFloatOpt ((qty.map (fun c => if c = ',' then '.' else c)).filter
          (fun c => c ≠ '.'))
      else pyFloatOpt qty
    let pv0 := pyFloatOpt ((up.filter (fun c => c ≠ '.')).map
      (fun c => if c = ',' then '.' else c))
    match qv, pv0 with
    | some q, some p0 =>
      let pvOpt := if p0 < 100 ∧ '.' ∈ up then pyFloatOpt (up.filter keepCh)
        else some p0
      match pvOpt with
      | some p =>
        let expected := if q * p = 0 ∧ q = 0 then p else q * p
        let v2 := parse_vietnamese_number cand2
        let v3 := parse_vietnamese_number cand3
        let diff2 := |v2 - expected|
        let diff3 := |v3 - expected|
        let amount := if diff3 < diff2 ∧ v2 < expected / 2 then cand3
          else if hasDiscount then cand3
          else cand2
        some (qty, up, amount)
      | none => some (qty, up, fallbackAmt)
    | _, _ => some (qty, up, fallbackAmt)
  else if 3 ≤ nums.length then
    some (nums.getD 0 [], nums.getD 1 [], nums.getD 2 [])
  else if nums.length = 2 then
    some (nums.getD 0 [], nums.getD 1 [], nums.getD 1 [])
  else none

/-- The small-amount/large-price swap heuristic of lines 1049-1064. -/
def heuristicFix (qty up amount : List Char) : List Char × List Char :=
  let aStr := amount.filter keepCh
  let pStr := up.filter keepCh
  if decide (aStr ≠ []) && aStr.all isDigitCh &&
      decide (pStr ≠ []) && pStr.all isDigitCh then
    if digitsFold aStr ≤ 100 ∧ 1000 < digitsFold pStr then
      (if qty = ['0'] ∨ qty = [] then ['1'] else qty, up)
    else (qty, amount)
  else (qty, amount)

/-- One iteration of the main loop of `extract_services_from_text`
(lines 657-1071) on the stripped line at `lineIdx`; `none` means the line
contributes no service. -/
def svcLine (lines : List (List Char)) (lineIdx : Nat) : Option SvcItem :=
  let line := pyStrip (lines.getD lineIdx [])
  if line = [] then none
  else
    let firstTok := ((splitWs line).headD [])
    if ¬ (firstTok ≠ [] ∧ firstTok.all isDigitCh) then none
    else if hdr1Match line then none
    else if hdr2Match line then none
    else
      match sttMatch line with
      | none => none
      | some (sttVal, sttEnd) =>
        let allNums := numToks line
        let isSurchargeLine := SURCHARGE_KEYWORDS.any
          (fun kw => hasSub (pyLowerL line) kw)
        if allNums.length < 3 ∧ ¬ (isSurchargeLine ∧ allNums.length = 2)
          then none
        else
          let taxRate := rateMatch line
          let tokens := splitWs line
          let stage1 : Option (List Char × List (List Char)) :=
            match findUnitIdx tokens with
            | none =>
              let numsAfterStt := allNums.filter (fun m => sttEnd < m.1)
              let nameEndPos := ((numsAfterStt.find?
                (fun m => isPriceTok m.2)).map (fun m => m.1)).getD line.length
              if nameEndPos ≤ sttEnd then none
              else some (pyStrip ((line.drop sttEnd).take (nameEndPos - sttEnd)),
                numsAfterStt.map (fun m => m.2))
            | some i =>
              let nameTokens := tokens.take i
              let nums := (numToks (joinSpace (tokens.drop (i + 1)))).map
                (fun m => m.2)
              if nums.length < 2 ∧
                  ¬ (SURCHARGE_KEYWORDS.any (fun kw =>
                      hasSub (pyLowerL (joinSpace nameTokens)) kw) ∧
                    nums.length = 1) then none
              else some (joinSpace nameTokens, nums)
          match stage1 with
          | none => none
          | some (namePart0, nums0) =>
            let isSurchargeItem := SURCHARGE_KEYWORDS.any
              (fun kw => hasSub (pyLowerL namePart0) kw)
            let numsOpt : Option (List (List Char)) :=
              if nums0.length < 2 then
                if isSurchargeItem ∧ nums0.length = 1 then
                  some (['1'] :: nums0.getD 0 [] :: [nums0.getD 0 []])
                else none
              else some nums0
            match numsOpt with
            | none => none
            | some nums =>
              let np1 := joinSpace (bracketFix (dropLeadUnits (dropTrailUnits
                (splitWs namePart0))))
              let np2 := if startsWithL sttVal np1 then
                  pyStrip (np1.drop sttVal.length)
                else np1
              let checkName := pyStrip (subNumWsPrefix np2)
              let firstChar := checkName.headD ' '
              let needsPrev := checkName.length < 5 ∨
                (checkName ≠ [] ∧ isLowerPy firstChar) ∨
                firstChar = '(' ∨ firstChar = ')' ∨ ')' ∈ checkName.take 10
              let prevParts := if needsPrev then collectPrev lines lineIdx
                else []
              let np3 := if prevParts ≠ [] then
                  joinSpace prevParts ++ ' ' :: np2
                else np2
              let lastChar := np3.getLastD ' '
              let nextLineIsSuffix :=
                if lineIdx + 1 < lines.length then
                  let peek := pyStrip (lines.getD (lineIdx + 1) [])
                  (peek.headD ' ' = '(' ∧ peek.any isAsciiLetter) ∨
                  (peek.headD ' ' = '(' ∧
                    (["ngày", "từ", "đến", "tháng", "năm"].map
                      String.toList).any (fun k => hasSub (pyLowerL peek) k))
                else False
              let hasUnclosed :=
                (np3.count ')' < np3.count '(') ∨
                (np3.count '）' < np3.count '（')
              -- Python `last_char in '(-（'` is True for the empty string
              let needsNext := (np3 = [] ∨ lastChar = '(' ∨ lastChar = '-' ∨
                  lastChar = '（') ∨
                (pyRstrip np3).getLastD ' ' = '(' ∨
                (pyRstrip np3).getLastD ' ' = '（' ∨
                hasUnclosed ∨ nextLineIsSuffix
              let nextParts := if needsNext then
                  collectNext lines lineIdx (decide hasUnclosed)
                else []
              let np4 := if nextParts ≠ [] then
                  np3 ++ ' ' :: joinSpace nextParts
                else np3
              let np5 := subTrailJunk (subNumEqPrefix (subACPrefix
                (stripJunkPrefixes (pyStrip np4))))
              let np6 := match trailNumMatch np5 with
                | some (word, g2start) =>
                  let numPart := (splitWs (pyStrip (np5.drop g2start))).headD []
                  let keep := (numPart.length = 4 ∧ numPart.all isDigitCh) ∨
                    (["giá", "gia", "mệnh", "số", "phòng", "room", "no",
                      "no."].map String.toList).any
                      (fun k => pyLowerL word = k)
                  if keep then np5 else pyStrip (np5.take g2start)
                | none => np5
              let np7 := joinSpace (dropLeadUnits (dropTrailUnits
                (splitWs (pyStrip np6))))
              if np7.length < 3 then none
              else if is_junk_text np7 then none
              else if np7.all (fun c => isDigitCh c || c.isWhitespace) then none
              else if np7.all (fun c => isDigitCh c || c.isWhitespace ||
                  c = '=' || c = 'x' || c = '+' || c = '-' || c = '.' ||
                  c = ',' || c = '(' || c = ')' || c = '[' || c = ']') then none
              else
                match pickNums nums with
                | none => none
                | some (qty0, up, amount0) =>
                  let fixd := heuristicFix qty0 up amount0
                  some ⟨⟨np7⟩, format_price_value ⟨fixd.1⟩,
                    format_price_value ⟨up⟩, format_price_value ⟨fixd.2⟩,
                    taxRate⟩

/-- `extract_services_from_text` (lines 652-1073). -/
def extract_services_from_text (full_text : String) : List SvcItem :=
  let lines := splitNl full_text.toList
  (List.range lines.length).filterMap (fun i => svcLine lines i)

set_option maxRecDepth 100000 in
/-- C3 counterexample: on a text consisting of exactly the item line quoted
by the claim, `1. Cơm gà nướng PHẦN 2 45.000 90.000`, the service extractor
produces no line item at all — the first whitespace-separated token is
`1.`, whose trailing dot fails the `first_token.isdigit()` gate at
line 663, so the line is skipped before any field is read. -/
theorem claim_C3_line_item_counterexample :
    extract_services_from_text "1. Cơm gà nướng PHẦN 2 45.000 90.000" = [] := by
  decide

set_option maxRecDepth 100000 in
/-- C3 amended: when the sequence number is a bare digit separated by a
space (`1 Cơm gà nướng PHẦN 2 45.000 90.000`), the extractor emits exactly
one item with name `Cơm gà nướng`, quantity 2, unit price 45000 and amount
90000, the two money values rendered by `format_price_value` with comma
grouping (`45,000`, `90,000`), and no detected tax rate. -/
theorem claim_C3_line_item_amended :
    extract_services_from_text "1 Cơm gà nướng PHẦN 2 45.000 90.000" =
      [⟨"Cơm gà nướng", "2", "45,000", "90,000", none⟩] := by
  decide

/-! ### Claim C10, settled: the "Tên file" value through the cascade

Every step of the reconciliation cascade except the cleanup loop of
lines 2462-2464 leaves the "Tên file" field untouched; that loop rewrites
it to `clean_string_value` of its current value.  The lemmas below prove
the field-preservation of each step, giving the exact law for the value
the function returns. -/

lemma setBucketTag_tenFile (t : RateTag) (v : String) (d : InvoiceRecord) :
    (setBucketTag t v d).tenFile = d.tenFile := by
  cases t <;> rfl

lemma setBucketStr_tenFile (rs v : String) (d : InvoiceRecord) :
    (setBucketStr rs v d).tenFile = d.tenFile := by
  unfold setBucketStr
  split_ifs <;> rfl

lemma recSales_tenFile (sig : TextSignals) (d : InvoiceRecord) :
    (recSales sig d).tenFile = d.tenFile := by
  unfold recSales
  split_ifs <;> first | rfl | (cases sig.salesMatch <;> rfl)

lemma recNoise_tenFile (d : InvoiceRecord) :
    (recNoise d).tenFile = d.tenFile := by
  simp only [recNoise]
  split_ifs <;> rfl

lemma recTotalCalc_tenFile (d : InvoiceRecord) :
    (recTotalCalc d).tenFile = d.tenFile := by
  unfold recTotalCalc
  split_ifs <;> rfl

lemma recReverse_tenFile (d : InvoiceRecord) :
    (recReverse d).tenFile = d.tenFile := by
  simp only [recReverse]
  split_ifs <;> rfl

lemma recGarbage_tenFile (sig : TextSignals) (d : InvoiceRecord) :
    (recGarbage sig d).tenFile = d.tenFile := by
  simp only [recGarbage]
  cases sig.garbageTotal <;> split_ifs <;> rfl

lemma recReRun_tenFile (d : InvoiceRecord) :
    (recReRun d).tenFile = d.tenFile := by
  simp only [recReRun]
  split_ifs <;> rfl

lemma summaryStep_tenFile (acc : InvoiceRecord × Int)
    (rl : RateTag × String × String × String) :
    ((summaryStep acc rl).1).tenFile = acc.1.tenFile := by
  simp only [summaryStep]
  split_ifs <;> simp [setBucketTag_tenFile]

lemma summaryFold_tenFile (lines : List (RateTag × String × String × String)) :
    ∀ acc : InvoiceRecord × Int,
      ((lines.foldl summaryStep acc).1).tenFile = acc.1.tenFile := by
  induction lines with
  | nil => intro acc; rfl
  | cons a t ih => intro acc; rw [List.foldl_cons, ih, summaryStep_tenFile]

lemma recSummary_tenFile (lines : List (RateTag × String × String × String))
    (d : InvoiceRecord) : (recSummary lines d).tenFile = d.tenFile := by
  simp only [recSummary]
  split_ifs <;>
    simpa using summaryFold_tenFile lines (d, 0)

lemma recGrand_tenFile (sig : TextSignals) (d : InvoiceRecord) :
    (recGrand sig d).tenFile = d.tenFile := by
  unfold recGrand
  cases sig.grandTotal <;> rfl

lemma recLookup_tenFile (sig : TextSignals) (d : InvoiceRecord) :
    (recLookup sig d).tenFile = d.tenFile := by
  unfold recLookup
  cases sig.lookupCode <;> cases sig.pcCode <;> split_ifs <;> rfl

lemma recKhacFill_tenFile (d : InvoiceRecord) :
    (recKhacFill d).tenFile = d.tenFile := by
  simp only [recKhacFill]
  split_ifs <;> simp [setBucketStr_tenFile]

lemma ite_tenFile_eq {x : String} (c : Prop) [Decidable c]
    {a b : InvoiceRecord} (ha : a.tenFile = x) (hb : b.tenFile = x) :
    (if c then a else b).tenFile = x := by
  split_ifs <;> assumption

lemma recSanity_tenFile (d : InvoiceRecord) :
    (recSanity d).tenFile = d.tenFile := by
  unfold recSanity
  refine ite_tenFile_eq _ ?_ rfl
  refine ite_tenFile_eq _ ?_ rfl
  repeat' refine ite_tenFile_eq _ ?_ ?_
  all_goals rfl

lemma recServices_tenFile (services : List SvcItem) (d : InvoiceRecord) :
    (recServices services d).tenFile = d.tenFile := by
  simp only [recServices]
  split_ifs <;> first | rfl | (rw [recSanity_tenFile]; try rfl)

lemma recTaxFromBuckets_tenFile (d : InvoiceRecord) :
    (recTaxFromBuckets d).tenFile = d.tenFile := by
  simp only [recTaxFromBuckets]
  split_ifs <;> rfl

lemma recRateInfer_tenFile (d : InvoiceRecord) :
    (recRateInfer d).tenFile = d.tenFile := by
  simp only [recRateInfer]
  split_ifs <;> rfl

lemma recCleanAll_tenFile (d : InvoiceRecord) :
    (recCleanAll d).tenFile = cleanStr d.tenFile := rfl

lemma recKhacClean_tenFile (d : InvoiceRecord) :
    (recKhacClean d).tenFile = d.tenFile := by
  simp only [recKhacClean]
  split_ifs <;> rfl

lemma recMoneyClean_tenFile (d : InvoiceRecord) :
    (recMoneyClean d).tenFile = d.tenFile := rfl

/-- Through the whole cascade of lines 2140-2526, the returned "Tên file"
is `clean_string_value` of the value the record carried — the cleanup loop
of lines 2462-2464 is the only step that writes it. -/
lemma reconcileMoney_tenFile (sig : TextSignals) (services : List SvcItem)
    (d : InvoiceRecord) :
    (reconcileMoney sig services d).tenFile = cleanStr d.tenFile := by
  show (recMoneyClean (recKhacClean (recCleanAll (recRateInfer
    (recTaxFromBuckets (recServices services (recKhacFill (recLookup sig
    (recGrand sig (recSummary sig.summaryLines (recReRun (recItemsFallback
    (recGarbage sig (recReverse (recTotalCalc (recNoise
    (recSales sig d))))))))))))))))).tenFile = cleanStr d.tenFile
  rw [recMoneyClean_tenFile, recKhacClean_tenFile, recCleanAll_tenFile,
    recRateInfer_tenFile, recTaxFromBuckets_tenFile, recServices_tenFile,
    recKhacFill_tenFile, recLookup_tenFile, recGrand_tenFile,
    recSummary_tenFile, recReRun_tenFile, recItemsFallback_id,
    recGarbage_tenFile, recReverse_tenFile, recTotalCalc_tenFile,
    recNoise_tenFile, recSales_tenFile]

/-- C10 counterexample: the claim's final conjunct — "the Tên file field
always equals the input file name" — is false.  The cleanup loop at
lines 2462-2464 runs `clean_string_value` over every field, "Tên file"
included, so a file name containing a tab comes back with the tab turned
into a single space: a record initialised with file name `a\tb.pdf` leaves
the cascade carrying `a b.pdf`, which differs from the input name. -/
theorem claim_C10_fixed_key_set_counterexample :
    (reconcileMoney noSignals [] (initRecord "a\tb.pdf")).tenFile = "a b.pdf" ∧
    ("a b.pdf" : String) ≠ "a\tb.pdf" :=
  ⟨by decide, by decide⟩

/-- C10 amended: the key-set half of the claim holds — every
post-initialisation assignment target of `extract_invoice_data` (literal
targets and the expanded ranges of the bounded dynamic targets) is one of
the 19 initial keys, which are distinct, and neither the targeted
assignments nor the guarded OCR merge name "Tên file", while the
dict-ranging loops cannot introduce keys — but the "Tên file" VALUE is
rewritten by the dict-ranging cleanup loop of lines 2462-2464: for every
input the cascade returns `clean_string_value` of the initial file name
(equal to the input name exactly when that name is already clean); the
sentinel path keeps the name verbatim. -/
theorem claim_C10_fixed_key_set_amended :
    ((∀ k ∈ extractAssignKeys, k ∈ initKeys) ∧
     (∀ k ∈ taxBucketKeys, k ∈ initKeys) ∧
     "Tên file" ∉ extractAssignKeys ∧
     "Tên file" ∉ ocrFieldKeys ∧
     initKeys.length = 19 ∧ initKeys.Nodup) ∧
    (∀ (sig : TextSignals) (services : List SvcItem) (d : InvoiceRecord),
      (reconcileMoney sig services d).tenFile = cleanStr d.tenFile) ∧
    (∀ s : String, (initRecord s).tenFile = s) ∧
    (∀ s : String, (sentinelFill (initRecord s)).tenFile = s) :=
  ⟨⟨by decide, by decide, by decide, by decide, by decide, by decide⟩,
   reconcileMoney_tenFile, fun _ => rfl, fun _ => rfl⟩

end Invoice
